import Mathlib

set_option maxRecDepth 10000

/-!
Verification of the conversation-orchestration core of a signed-webhook
chat bot (source: app.py). The Python source is shallowly embedded:
strings are Lean strings, Python string methods (strip, lower, slicing,
substring test) are modelled as executable functions on the underlying
character lists, machine integers are Nat, the HMAC-SHA256 primitive is
embedded in full over byte lists, and the stateful webhook handler is
embedded as an explicit state-passing function whose external calls
(HTTP, sqlite, subprocess) are driven by an oracle record `Env` and
recorded in an effect trace.
-/

/- ===== Python string semantics on character lists ===== -/

/-- Whitespace set of Python str.strip for the ASCII range. -/
def isPySpace (c : Char) : Bool :=
  c == ' ' || c == '\t' || c == '\n' || c == '\r' || c == '\x0b' || c == '\x0c'

/-- ASCII lower-casing of one character, as Python str.lower acts on the
    alphabet used by this program. -/
def pyLowerChar (c : Char) : Char :=
  if 65 ≤ c.toNat && c.toNat ≤ 90 then Char.ofNat (c.toNat + 32) else c

/-- Python str.lower. -/
def pyLower (s : String) : String := ⟨s.data.map pyLowerChar⟩

/-- Python str.strip (no argument): drop leading and trailing whitespace. -/
def pyStrip (s : String) : String :=
  ⟨((s.data.dropWhile isPySpace).reverse.dropWhile isPySpace).reverse⟩

/-- Boolean test that `needle` begins `hay` (Python str.startswith core). -/
def listStartsWith : List Char → List Char → Bool
  | [], _ => true
  | _ :: _, [] => false
  | a :: as, b :: bs => a == b && listStartsWith as bs

/-- Python substring operator `needle in hay` on character lists. -/
def pyContainsL (needle : List Char) : List Char → Bool
  | [] => needle.isEmpty
  | c :: rest => listStartsWith needle (c :: rest) || pyContainsL needle rest

/-- Python substring operator `needle in hay`. -/
def pyContains (hay needle : String) : Bool := pyContainsL needle.data hay.data

/-- Python str.startswith. -/
def pyStartsWith (s pre : String) : Bool := listStartsWith pre.data s.data

/-- Python slice s[n:]. -/
def pyDrop (n : Nat) (s : String) : String := ⟨s.data.drop n⟩

/-- Python slice s[:n] for n ≥ 0. -/
def pyTake (n : Nat) (s : String) : String := ⟨s.data.take n⟩

/-- Python length of a str (number of code points). -/
def pyLen (s : String) : Nat := s.data.length

/-- Python slice s[-n:] (for n = 0 Python yields the whole string). -/
def pyTakeLast (n : Nat) (s : String) : String :=
  if n = 0 then s else ⟨s.data.drop (s.data.length - n)⟩

/- ===== SHA-256 and HMAC-SHA256 over byte lists (Nat values mod 2^32) ===== -/

def w32 : Nat := 4294967296

def rotr32 (n x : Nat) : Nat :=
  (x / 2 ^ n + x % 2 ^ n * 2 ^ (32 - n)) % w32

def shr32 (n x : Nat) : Nat := x / 2 ^ n

def not32 (x : Nat) : Nat := (w32 - 1) - x

def shaK : List Nat :=
  [1116352408, 1899447441, 3049323471, 3921009573, 961987163,
   1508970993, 2453635748, 2870763221, 3624381080, 310598401,
   607225278, 1426881987, 1925078388, 2162078206, 2614888103,
   3248222580, 3835390401, 4022224774, 264347078, 604807628,
   770255983, 1249150122, 1555081692, 1996064986, 2554220882,
   2821834349, 2952996808, 3210313671, 3336571891, 3584528711,
   113926993, 338241895, 666307205, 773529912, 1294757372,
   1396182291, 1695183700, 1986661051, 2177026350, 2456956037,
   2730485921, 2820302411, 3259730800, 3345764771, 3516065817,
   3600352804, 4094571909, 275423344, 430227734, 506948616,
   659060556, 883997877, 958139571, 1322822218, 1537002063,
   1747873779, 1955562222, 2024104815, 2227730452, 2361852424,
   2428436474, 2756734187, 3204031479, 3329325298]

def shaH0 : List Nat :=
  [1779033703, 3144134277, 1013904242, 2773480762, 1359893119,
   2600822924, 528734635, 1541459225]

/-- Pad a byte message per SHA-256: append 0x80, zeros, then the 64-bit
    big-endian bit length. -/
def shaPad (msg : List Nat) : List Nat :=
  let len := msg.length
  let bitLen := len * 8
  let zeros := (64 - (len + 9) % 64) % 64
  let lenBytes := (List.range 8).map (fun i => bitLen / 2 ^ (8 * (7 - i)) % 256)
  msg ++ [0x80] ++ List.replicate zeros 0 ++ lenBytes

/-- Big-endian 4-byte word from bytes. -/
def word4 (a b c d : Nat) : Nat := ((a * 256 + b) * 256 + c) * 256 + d

def toWords : List Nat → List Nat
  | a :: b :: c :: d :: rest => word4 a b c d :: toWords rest
  | _ => []

def toBlocks (bytes : List Nat) : List (List Nat) :=
  let rec go (l : List Nat) (fuel : Nat) : List (List Nat) :=
    match fuel with
    | 0 => []
    | fuel + 1 =>
      match l with
      | [] => []
      | _ => l.take 64 :: go (l.drop 64) fuel
  go bytes (bytes.length / 64 + 1)

def smallSigma0 (x : Nat) : Nat := Nat.xor (Nat.xor (rotr32 7 x) (rotr32 18 x)) (shr32 3 x)

def smallSigma1 (x : Nat) : Nat := Nat.xor (Nat.xor (rotr32 17 x) (rotr32 19 x)) (shr32 10 x)

def bigSigma0 (x : Nat) : Nat := Nat.xor (Nat.xor (rotr32 2 x) (rotr32 13 x)) (rotr32 22 x)

def bigSigma1 (x : Nat) : Nat := Nat.xor (Nat.xor (rotr32 6 x) (rotr32 11 x)) (rotr32 25 x)

/-- Extend the 16 block words to the 64 schedule words. -/
def schedule (initial : List Nat) : List Nat :=
  let rec go (acc : List Nat) (i : Nat) : List Nat :=
    match i with
    | 0 => acc
    | i + 1 =>
      let t := acc.length
      let w15 := acc.getD (t - 15) 0
      let w2 := acc.getD (t - 2) 0
      let w16 := acc.getD (t - 16) 0
      let w7 := acc.getD (t - 7) 0
      let nw := (smallSigma1 w2 + w7 + smallSigma0 w15 + w16) % w32
      go (acc ++ [nw]) i
  go initial 48

structure Sha8 where
  a : Nat
  b : Nat
  c : Nat
  d : Nat
  e : Nat
  f : Nat
  g : Nat
  h : Nat

def shaRound (st : Sha8) (k w : Nat) : Sha8 :=
  let t1 := (st.h + bigSigma1 st.e +
    Nat.xor (Nat.land st.e st.f) (Nat.land (not32 st.e) st.g) + k + w) % w32
  let t2 := (bigSigma0 st.a +
    Nat.xor (Nat.xor (Nat.land st.a st.b) (Nat.land st.a st.c)) (Nat.land st.b st.c)) % w32
  { a := (t1 + t2) % w32, b := st.a, c := st.b, d := st.c,
    e := (st.d + t1) % w32, f := st.e, g := st.f, h := st.g }

def shaRounds : Sha8 → List Nat → List Nat → Sha8
  | st, k :: ks, w :: ws => shaRounds (shaRound st k w) ks ws
  | st, _, _ => st

def shaCompress (h : List Nat) (block : List Nat) : List Nat :=
  let ws := schedule (toWords block)
  let st0 : Sha8 := { a := h.getD 0 0, b := h.getD 1 0, c := h.getD 2 0, d := h.getD 3 0,
                      e := h.getD 4 0, f := h.getD 5 0, g := h.getD 6 0, h := h.getD 7 0 }
  let st := shaRounds st0 shaK ws
  [(h.getD 0 0 + st.a) % w32, (h.getD 1 0 + st.b) % w32, (h.getD 2 0 + st.c) % w32,
   (h.getD 3 0 + st.d) % w32, (h.getD 4 0 + st.e) % w32, (h.getD 5 0 + st.f) % w32,
   (h.getD 6 0 + st.g) % w32, (h.getD 7 0 + st.h) % w32]

def sha256Bytes (msg : List Nat) : List Nat :=
  let final := (toBlocks (shaPad msg)).foldl shaCompress shaH0
  final.foldr (fun word acc =>
    [word / 2 ^ 24 % 256, word / 2 ^ 16 % 256, word / 2 ^ 8 % 256, word % 256] ++ acc) []

def hexChar (n : Nat) : Char :=
  if n < 10 then Char.ofNat (48 + n) else Char.ofNat (87 + n)

/-- Lowercase hex rendering of a byte list (Python hexdigest). -/
def bytesToHex (bytes : List Nat) : String :=
  String.mk (bytes.foldr (fun b acc => hexChar (b / 16) :: hexChar (b % 16) :: acc) [])

/-- UTF-8 encoding of one unicode scalar value, as byte values
    (Python str.encode). -/
def utf8Enc (n : Nat) : List Nat :=
  if n < 0x80 then [n]
  else if n < 0x800 then [0xc0 + n / 64, 0x80 + n % 64]
  else if n < 0x10000 then [0xe0 + n / 4096, 0x80 + n / 64 % 64, 0x80 + n % 64]
  else [0xf0 + n / 262144, 0x80 + n / 4096 % 64, 0x80 + n / 64 % 64, 0x80 + n % 64]

def strBytes (s : String) : List Nat := s.data.foldr (fun c acc => utf8Enc c.toNat ++ acc) []

/-- HMAC-SHA256 of message bytes under a key (RFC 2104, block size 64). -/
def hmacSha256 (key msg : List Nat) : List Nat :=
  let k0 := if key.length > 64 then sha256Bytes key else key
  let kPad := k0 ++ List.replicate (64 - k0.length) 0
  let ipadKey := kPad.map (fun b => Nat.xor b 0x36)
  let opadKey := kPad.map (fun b => Nat.xor b 0x5c)
  sha256Bytes (opadKey ++ sha256Bytes (ipadKey ++ msg))

/-- Python hmac.new(key.encode(), msg.encode(), hashlib.sha256).hexdigest(). -/
def hmacSha256Hex (key msg : String) : String :=
  bytesToHex (hmacSha256 (strBytes key) (strBytes msg))

/- ===== Embedded source functions (app.py) ===== -/

/-- Source constant MAX_HISTORY_MESSAGES (the rendering window W). -/
def MAX_HISTORY_MESSAGES : Nat := 50

/-- Source constant MAX_MESSAGE_LENGTH_IN_HISTORY (the truncation cap L). -/
def MAX_MESSAGE_LENGTH_IN_HISTORY : Nat := 500

/-- Source function verify_signature(secret, random_header, body, signature):
    empty secret short-circuits to False; otherwise the lower-cased hex
    HMAC-SHA256 digest of random_header + body under secret is compared
    (hmac.compare_digest, semantically string equality) with the
    lower-cased provided signature. -/
def verify_signature (secret random_header body signature : String) : Bool :=
  if secret = "" then false
  else pyLower (hmacSha256Hex secret (random_header ++ body)) == pyLower signature

/-- Conversation message record as stored in conversation_history. -/
structure Msg where
  role : String
  name : String
  content : String
  timestamp : String
deriving DecidableEq, Repr

/-- Source function add_to_history, restricted to the list stored at one
    token: append the new message; when the length exceeds
    MAX_HISTORY_MESSAGES * 2 keep the slice [-(MAX_HISTORY_MESSAGES * 2):]. -/
def add_to_history (hist : List Msg) (role name content timestamp : String) : List Msg :=
  let h := hist ++ [{ role := role, name := name, content := content, timestamp := timestamp }]
  if h.length > MAX_HISTORY_MESSAGES * 2 then h.drop (h.length - MAX_HISTORY_MESSAGES * 2) else h

/-- Source function add_key_fact, restricted to the fact list of one token:
    a fact already present (verbatim) leaves the list unchanged and returns
    False; otherwise it is appended, the list is cut to its last 20 entries
    when longer than 20, and True is returned. -/
def add_key_fact (facts : List String) (fact : String) : List String × Bool :=
  if facts.contains fact then (facts, false)
  else
    let f := facts ++ [fact]
    (if f.length > 20 then f.drop (f.length - 20) else f, true)

/-- Source constant: the elision marker inserted by truncate_message. -/
def elisionMarker : String := "\n...[ingekort]...\n"

/-- Source function truncate_message(content, max_length=500): short
    content is returned unchanged; otherwise the first and last
    (max_length - 20) // 2 characters are kept around the marker. -/
def truncate_message (content : String) (max_length : Nat := 500) : String :=
  if pyLen content ≤ max_length then content
  else
    let half := (max_length - 20) / 2
    pyTake half content ++ elisionMarker ++ pyTakeLast half content

/-- Explicit completion phrases of detect_completion_intent. -/
def explicit_phrases : List String :=
  ["taak afronden", "taak afsluiten", "taak voltooien",
   "sluit de taak", "rond de taak af", "voltooi de taak",
   "markeer als klaar", "markeer als voltooid", "markeer als afgerond",
   "zet op klaar", "zet op done", "naar klaar verplaatsen",
   "taak is klaar", "taak is af", "taak voltooid",
   "dit is klaar", "alles is klaar", "alles afgerond",
   "we zijn klaar", "ik ben klaar", "klaar met de taak"]

/-- Confirmation-seeking phrases of detect_completion_intent. -/
def confirm_phrases : List String :=
  ["kunnen we afronden", "kunnen we afsluiten",
   "mag de taak dicht", "taak dicht", "afronden?",
   "is de taak klaar", "ben je klaar", "zijn we klaar",
   "kan dit dicht", "sluiten we af"]

/-- Completion verdicts; the source returns the strings complete and
    confirm, or None. -/
inductive Intent where
  | complete
  | confirm
deriving DecidableEq, Repr

/-- Source function detect_completion_intent(message): the message is
    lower-cased and stripped, the explicit phrase set is scanned first by
    substring match (verdict complete), then the confirmation set
    (verdict confirm), else None. -/
def detect_completion_intent (message : String) : Option Intent :=
  let message_lower := pyStrip (pyLower message)
  if explicit_phrases.any (fun p => pyContains message_lower p) then some .complete
  else if confirm_phrases.any (fun p => pyContains message_lower p) then some .confirm
  else none

/- ===== State, environment oracle, and effect trace for the handler ===== -/

/-- Row of the task_bots table (deck-bot database) bound to one
    conversation token. -/
structure TaskBot where
  board_id : Nat
  stack_id : Nat
  card_id : Nat
  card_title : String
  card_description : String
  status : String
  created_at : String
  completed_at : Option String
deriving DecidableEq, Repr

/-- Per-bot configuration entry of BOTS. -/
structure BotConfig where
  secret : String
  erpnext_user : String
  config_dir : String
  working_dir : String
  nextcloud_user : String
  nextcloud_password : String
deriving DecidableEq, Repr

/-- Mutable state touched by the handler: the two in-process stores and
    the task-bot table of the external database. Maps are total functions
    from tokens; an unknown token maps to the empty value (resp. none). -/
structure St where
  history : String → List Msg
  facts : String → List String
  taskDB : String → Option TaskBot

/-- Deck stack as returned by the stacks listing. -/
structure Stack where
  id : Nat
  title : String
deriving DecidableEq, Repr

/-- Result record of find_or_create_task on success. -/
structure CreatedCard where
  card_title : String
  board : String
  stack : String
  url : String
deriving DecidableEq, Repr

/-- Observable external actions, in program order. -/
inductive Eff where
  | sent (token text : String) (replyTo : Option Nat)
  | closedConv (token : String)
  | listedStacks (boardId : Nat)
  | movedCard (boardId fromStack cardId toStack : Nat)
  | deckComment (boardId stackId cardId : Nat) (text : String)
  | claudeCalled (prompt : String)
  | createdTask (title : String) (descr : Option String)
  | sharedFile (path token : String)
  | uploadedFile (path token : String)
  | searchedFiles (query : String)
  | previewedDoc (path : String)
  | transcribedAudio (url : String)
deriving DecidableEq, Repr

/-- Oracle for every external call the handler makes. Each field fixes the
    outcome the outside world would return; the handler itself stays a
    pure function of (state, request, oracle). -/
structure Env where
  sendOk : Bool
  dbOk : Bool
  stacksResult : Option (List Stack)
  moveOk : Bool
  closeOk : Bool
  claudeResponse : String
  now : String
  fmtTime : String → String
  taskCreate : Option CreatedCard
  taskErr : String
  boards : List (String × Nat)
  shareOk : Bool
  fileExists : String → Bool
  uploadOk : Bool
  uploadShared : Bool
  uploadedPath : String
  uploadErr : String
  searchResults : List (String × String × Nat)
  vindResult : Option String
  vindErr : String
  previewOk : Bool
  previewText : String
  downloadOk : Bool
  transcription : Option String

/-- Parsed activity envelope of an inbound webhook body. The field
    contentMessage models the message field of object.content when that
    content is itself a JSON object (None when the content is plain text). -/
structure Envelope where
  activityType : String
  actorType : String
  actorName : String
  objectContent : String
  contentMessage : Option String
  objectId : String
  targetId : String

/-- Result of extract_file_info on the envelope and message parameters
    (abstracted: the claims under verification never carry a file). -/
structure FileInfo where
  url : String
  name : String
  ftype : String
deriving DecidableEq, Repr

/-- Inbound webhook request: the route user, the two signature headers,
    the raw body, the result of json.loads on the body (none models a
    JSONDecodeError), and the extract_file_info outcome. -/
structure Req where
  user : String
  signature : String
  randomHeader : String
  rawBody : String
  parsed : Option Envelope
  fileInfo : Option FileInfo

/-- Handler outcome: HTTP status with response body, the state after, and
    the trace of external actions. -/
structure Out where
  resp : Nat × String
  st : St
  trace : List Eff

/- ===== Embedded collaborator functions ===== -/

/-- Source function get_task_bot_by_token: one row lookup by token. -/
def get_task_bot_by_token (taskDB : String → Option TaskBot) (token : String) : Option TaskBot :=
  taskDB token

/-- Source function get_key_facts. -/
def get_key_facts (key_facts : String → List String) (token : String) : List String :=
  key_facts token

/-- Source function send_message, reduced to its observable action: one
    signed POST whose success the oracle decides. -/
def send_message (env : Env) (token message : String) (reply_to : Option Nat := none) :
    Bool × List Eff :=
  (env.sendOk, [.sent token message reply_to])

/-- Source function close_conversation: one DELETE on the room. -/
def close_conversation (env : Env) (token : String) : Bool × List Eff :=
  (env.closeOk, [.closedConv token])

/-- Source function move_card_to_done: list the stacks of the board, pick
    the first whose lowered title contains klaar, done or afgerond, and
    reorder the card into it. A failed listing or an absent done stack
    returns False without moving. -/
def move_card_to_done (env : Env) (board_id current_stack_id card_id : Nat) :
    Bool × List Eff :=
  match env.stacksResult with
  | none => (false, [.listedStacks board_id])
  | some stackList =>
    match stackList.find? (fun stack =>
        let title := pyLower stack.title
        pyContains title "klaar" || pyContains title "done" || pyContains title "afgerond") with
    | none => (false, [.listedStacks board_id])
    | some done_stack =>
      (env.moveOk, [.listedStacks board_id,
        .movedCard board_id current_stack_id card_id done_stack.id])

/-- Source function complete_task: set status completed with a completion
    timestamp in the task database, then move the bound card (result of
    the move deliberately ignored), returning True; a database failure
    (oracle dbOk false, modelling the caught sqlite exception) returns
    False with nothing changed and no move attempted. -/
def complete_task (env : Env) (token : String) (task_bot : TaskBot)
    (taskDB : String → Option TaskBot) :
    Bool × (String → Option TaskBot) × List Eff :=
  if env.dbOk then
    let taskDB' := fun t =>
      if t = token then
        match taskDB t with
        | some tb => some { tb with status := "completed", completed_at := some env.now }
        | none => none
      else taskDB t
    let mv := move_card_to_done env task_bot.board_id task_bot.stack_id task_bot.card_id
    (true, taskDB', mv.2)
  else (false, taskDB, [])

/-- Source function call_claude, reduced to its observable action: one
    subprocess invocation whose stdout the oracle provides; overlong
    output is cut at 30000 characters and empty output replaced by a
    fixed fallback text. -/
def call_claude (env : Env) (prompt : String) : String × List Eff :=
  let response :=
    if pyLen env.claudeResponse > 30000 then pyTake 30000 env.claudeResponse ++ "\n\n... (afgekapt)"
    else env.claudeResponse
  ((if response = "" then "Geen antwoord van Claude." else response), [.claudeCalled prompt])

/-- Source function parse_message_content. In this embedding history
    entries store already-decoded plain texts, on which the JSON-decode
    attempt of the source falls through to the identity. -/
def parse_message_content (content : String) : String := content

/-- Source function get_history_context for one token: numbered key facts
    first, then the last MAX_HISTORY_MESSAGES history entries rendered
    with middle-elided content. The datetime parse and strftime of the
    source is modelled by the oracle function fmtTime applied to non-empty
    timestamps. -/
def get_history_context (fmtTime : String → String) (facts : List String)
    (messages : List Msg) : String :=
  let factLines : List String :=
    if facts ≠ [] then
      ["=== BELANGRIJKE FEITEN (onthoud dit) ==="] ++
        (facts.enum.map (fun p => toString (p.1 + 1) ++ ". " ++ p.2)) ++ [""]
    else []
  if messages = [] then
    if factLines ≠ [] then String.intercalate "\n" (factLines ++ ["=== Nieuw gesprek ==="])
    else ""
  else
    let recent := messages.drop (messages.length - MAX_HISTORY_MESSAGES)
    let msgLines := recent.map (fun msg =>
      let content := truncate_message (parse_message_content msg.content)
        MAX_MESSAGE_LENGTH_IN_HISTORY
      let time_str := if msg.timestamp = "" then "" else fmtTime msg.timestamp
      let who :=
        if msg.role = "user" then
          if time_str ≠ "" then "[" ++ time_str ++ "] " ++ msg.name else msg.name
        else
          if time_str ≠ "" then "[" ++ time_str ++ "] Claude" else "Claude"
      "**" ++ who ++ ":** " ++ content)
    String.intercalate "\n"
      (factLines ++ ["=== GESPREKSGESCHIEDENIS ==="] ++ msgLines ++ ["", "=== NIEUW BERICHT ==="])

/-- Last path segment, as in s.split(chr 47)[-1] of the source. -/
def lastSeg (s : String) : String :=
  ⟨s.data.foldl (fun acc c => if c = '/' then [] else acc ++ [c]) []⟩

/-- Numeric value of a digit string. -/
def digitsToNat (l : List Char) : Nat := l.foldl (fun n c => n * 10 + (c.toNat - 48)) 0

/-- Python int(s) on an already stripped string: optional sign then a
    non-empty digit run, otherwise a ValueError (none). -/
def pyInt? (s : String) : Option Int :=
  match s.data with
  | '-' :: rest =>
    if rest.isEmpty || !rest.all Char.isDigit then none else some (-(digitsToNat rest : Int))
  | '+' :: rest =>
    if rest.isEmpty || !rest.all Char.isDigit then none else some ((digitsToNat rest : Int))
  | l =>
    if l.isEmpty || !l.all Char.isDigit then none else some ((digitsToNat l : Int))

/-- Affirmation texts accepted as confirmation of a pending completion
    request (exact list literal of the source, including its third
    non-ASCII entry). -/
def affirmation_words : List String := ["ja", "yes", "ok", "ok辿", "bevestig", "akkoord"]

/- ===== The webhook handler ===== -/

/-- Webhook acknowledgement body: ok when the final delivery succeeded. -/
def okFailed (success : Bool) : Nat × String := (200, if success then "ok" else "failed")

def setHist (st : St) (token : String) (l : List Msg) : St :=
  { st with history := fun t => if t = token then l else st.history t }

def setFacts (st : St) (token : String) (l : List String) : St :=
  { st with facts := fun t => if t = token then l else st.facts t }

/-- Completion reply sent by the three completion call sites. -/
def taskDoneText (card_title : String) : String :=
  " **Taak afgerond!**\n\nDe taak \"" ++ card_title ++
  "\" is gemarkeerd als voltooid en verplaatst naar Klaar.\n\n*Deze conversatie wordt over 3 seconden gesloten...*"

/-- Help text for task conversations (source literal, apostrophe escaped). -/
def helpTextTask (card_title : String) : String :=
  "**Taak:** " ++ card_title ++
  "\n\n**Taak afronden:**\n- Zeg \"taak afronden\", \"we zijn klaar\", \"taak is af\", etc.\n- Of typ /done\n\n**Commando\x27s:**\n/done - Markeer taak als afgerond\n/status - Toon taak status\n/share /pad/bestand - Deel bestand uit Nextcloud\n/upload /lokaal/pad - Upload lokaal bestand naar chat\n/preview /pad/document - Preview PDF, ODT, DOCX of HTML\n/remember <feit> - Sla belangrijk feit op\n/facts - Toon opgeslagen feiten\n/forget <nr> - Vergeet een feit\n/reset - Wis gespreksgeschiedenis\n/help - Toon dit help bericht"

/-- Help text for ordinary conversations (source literal, abbreviated to
    its command section headers; the exact prose does not influence any
    verified property). -/
def helpTextGeneral : String :=
  "**Commando\x27s:**\n\n**Geheugen:**\n/remember <feit> - Sla een belangrijk feit op (ik onthoud dit!)\n/facts - Toon opgeslagen feiten\n/forget <nr> - Vergeet een feit\n\n**Taken:**\n/task <titel> - Maak nieuwe Deck taak aan\n/task <titel> | <beschrijving> - Met beschrijving\n/boards - Toon jouw Deck boards\n\n**Bestanden:**\n/zoek zoekterm - Zoek bestanden in Nextcloud\n/vind zoekterm - Zoek en deel automatisch eerste resultaat\n/share /pad/bestand - Deel bestand uit Nextcloud\n/upload /lokaal/pad - Upload lokaal bestand naar chat\n/preview /pad/document - Preview PDF, ODT, DOCX of HTML\n\n**Audio:**\n/transcribe - Transcribeer audio (stuur eerst audio)\n\n**Overig:**\n/reset - Wis gespreksgeschiedenis\n/history - Toon aantal berichten\n/whoami - Toon bot info\n/help - Dit help bericht"

/-- Tail of the source dispatch cascade, split out at the seam after the
    last slash-command branch: the completion-intent block for active
    bindings, the pending-confirmation affirmation block, audio
    auto-transcription, and the default conversational turn. The local
    norm recomputes message_content.strip().lower() exactly as each
    source line does. -/
def dispatch_tail (env : Env) (token actor_name : String) (reply_to : Option Nat)
    (message_content : String) (fileInfo : Option FileInfo) (st : St) : Out :=
  let stripped := pyStrip message_content
  let norm := pyLower stripped
    let task_bot := get_task_bot_by_token st.taskDB token
    let intentStep : Option Out :=
      match task_bot with
      | some tb =>
        if tb.status == "active" then
          match detect_completion_intent message_content with
          | some .complete =>
            let r := complete_task env token tb st.taskDB
            if r.1 then
              let s := send_message env token (taskDoneText tb.card_title)
              let c := close_conversation env token
              some ⟨(200, "ok"), { st with taskDB := r.2.1 }, r.2.2 ++ s.2 ++ c.2⟩
            else
              let s := send_message env token "Fout bij afronden van de taak."
              some ⟨(200, "ok"), st, s.2⟩
          | some .confirm =>
            let s := send_message env token
              ("Wil je de taak \"" ++ tb.card_title ++
                "\" afronden?\n\nTyp **ja** of **/done** om te bevestigen, of stel nog een vraag als je verder wilt werken.")
            let h1 := add_to_history (st.history token) "user" actor_name message_content env.now
            let h2 := add_to_history h1 "assistant" "Claude"
              "Vraag om bevestiging voor afronden taak" env.now
            some ⟨(200, "ok"), setHist st token h2, s.2⟩
          | none => none
        else none
      | none => none
    match intentStep with
    | some out => out
    | none =>
      let affirmStep : Option Out :=
        match task_bot with
        | some tb =>
          if affirmation_words.contains norm then
            match (st.history token).getLast? with
            | some lastMsg =>
              if pyContains lastMsg.content "bevestiging voor afronden" then
                let r := complete_task env token tb st.taskDB
                if r.1 then
                  let s := send_message env token (taskDoneText tb.card_title)
                  let c := close_conversation env token
                  some ⟨(200, "ok"), { st with taskDB := r.2.1 }, r.2.2 ++ s.2 ++ c.2⟩
                else
                  let s := send_message env token "Fout bij afronden van de taak."
                  some ⟨(200, "ok"), st, s.2⟩
              else none
            | none => none
          else none
        | none => none
      match affirmStep with
      | some out => out
      | none =>
        let audioStep : Except Out (String × List Eff) :=
          match fileInfo with
          | some fi =>
            if fi.ftype == "audio" && fi.url ≠ "" then
              let s0 := send_message env token
                ("Audio gedetecteerd (" ++ (if fi.name ≠ "" then fi.name else "audio") ++
                  "). Transcriberen...")
              if env.downloadOk then
                match env.transcription with
                | some t =>
                  let s1 := send_message env token ("**Transcriptie:**\n" ++ t)
                  .ok ("[Audio transcriptie]: " ++ t, s0.2 ++ [.transcribedAudio fi.url] ++ s1.2)
                | none =>
                  let s1 := send_message env token "Transcriptie mislukt."
                  .error ⟨(200, "failed"), st, s0.2 ++ [.transcribedAudio fi.url] ++ s1.2⟩
              else
                let s1 := send_message env token "Kon audio niet downloaden."
                .error ⟨(200, "failed"), st, s0.2 ++ s1.2⟩
            else .ok (message_content, [])
          | none => .ok (message_content, [])
        match audioStep with
        | .error out => out
        | .ok (mc, preEffs) =>
          let h1 := add_to_history (st.history token) "user" actor_name mc env.now
          let st1 := setHist st token h1
          let commentEffs : List Eff :=
            match task_bot with
            | some tb =>
              if tb.board_id ≠ 0 && tb.card_id ≠ 0 then
                let prefix_len := pyLen ("**" ++ actor_name ++ ":** ") + 3
                let max_msg_len := 1000 - prefix_len
                let truncated_msg :=
                  if pyLen mc > max_msg_len then pyTake max_msg_len mc ++ "..." else mc
                [.deckComment tb.board_id tb.stack_id tb.card_id
                  ("**" ++ actor_name ++ ":** " ++ truncated_msg)]
              else []
            | none => []
          let history_context :=
            get_history_context env.fmtTime (get_key_facts st.facts token) (st1.history token)
          let full_prompt :=
            if history_context ≠ "" then
              "Hieronder staat de gespreksgeschiedenis gevolgd door een nieuw bericht.\nHoud rekening met de context van eerdere berichten bij je antwoord.\n\n" ++
                history_context ++ "\n[" ++ actor_name ++ "]: " ++ mc
            else "[" ++ actor_name ++ "]: " ++ mc
          let task_context := get_task_bot_by_token st.taskDB token
          let busy :=
            match task_context with
            | some tc => send_message env token ("Bezig met taak: " ++ tc.card_title ++ "...")
            | none => send_message env token "Impertio AI is aan het nadenken..."
          let cc := call_claude env full_prompt
          let response := cc.1
          let h2 := add_to_history (st1.history token) "assistant" "Claude" response env.now
          let st2 := setHist st1 token h2
          let respCommentEffs : List Eff :=
            match task_context with
            | some tc =>
              if tc.board_id ≠ 0 && tc.card_id ≠ 0 then
                let max_comment_len := 1000 - 18
                let comment_response :=
                  if pyLen response > max_comment_len then pyTake max_comment_len response ++ "..."
                  else response
                [.deckComment tc.board_id tc.stack_id tc.card_id
                  ("**Claude AI:** " ++ comment_response)]
              else []
            | none => []
          let sFinal := send_message env token response reply_to
          ⟨okFailed sFinal.1, st2,
            preEffs ++ commentEffs ++ busy.2 ++ cc.2 ++ respCommentEffs ++ sFinal.2⟩



/-- Core of handle_webhook from the first command check onward, after the
    envelope has been authenticated and unpacked. Mirrors the source
    cascade: the seventeen slash-command branches in order, then the
    natural-language completion-intent block for active task bindings,
    then the pending-confirmation affirmation block, then audio
    auto-transcription, then the default conversational turn. The bodies
    of the file-handling commands (share, upload, zoek, vind, preview)
    are modelled at the granularity of their observable sends and
    effects, with external results taken from the oracle; the claims
    under verification never reach those bodies. -/
def dispatch_message (env : Env) (bot_config : BotConfig) (user token actor_name : String)
    (reply_to : Option Nat) (message_content : String) (fileInfo : Option FileInfo)
    (st : St) : Out :=
  let stripped := pyStrip message_content
  let norm := pyLower stripped
  if norm == "/reset" then
    let st1 := setHist st token []
    let s := send_message env token "Gespreksgeschiedenis gewist. We beginnen opnieuw!"
    ⟨okFailed s.1, st1, s.2⟩
  else if norm == "/history" then
    let count := (st.history token).length
    let s := send_message env token
      ("Dit gesprek bevat " ++ toString count ++ " berichten in de geschiedenis.")
    ⟨okFailed s.1, st, s.2⟩
  else if norm == "/whoami" then
    let info := "Bot: " ++ user ++ "\nERPNext user: " ++ bot_config.erpnext_user ++
      "\nConfig: " ++ bot_config.config_dir
    let s := send_message env token info
    ⟨okFailed s.1, st, s.2⟩
  else if pyStartsWith norm "/remember " then
    let fact := pyStrip (pyDrop 10 stripped)
    if fact == "" then
      let s := send_message env token "Gebruik: /remember <feit om te onthouden>"
      ⟨okFailed s.1, st, s.2⟩
    else
      let r := add_key_fact (st.facts token) fact
      if r.2 then
        let s := send_message env token (" Onthouden: " ++ fact)
        ⟨okFailed s.1, setFacts st token r.1, s.2⟩
      else
        let s := send_message env token "Dit feit was al opgeslagen."
        ⟨okFailed s.1, st, s.2⟩
  else if norm == "/facts" then
    let facts := get_key_facts st.facts token
    let facts_text :=
      if facts ≠ [] then
        "**Opgeslagen feiten voor dit gesprek:**\n\n" ++
          String.join (facts.enum.map (fun p => toString (p.1 + 1) ++ ". " ++ p.2 ++ "\n")) ++
          "\nGebruik /forget <nummer> om een feit te verwijderen."
      else
        "Geen opgeslagen feiten voor dit gesprek.\n\nGebruik /remember <feit> om iets te onthouden."
    let s := send_message env token facts_text
    ⟨okFailed s.1, st, s.2⟩
  else if pyStartsWith norm "/forget " then
    match pyInt? (pyStrip (pyDrop 8 stripped)) with
    | none =>
      let s := send_message env token "Gebruik: /forget <nummer>"
      ⟨okFailed s.1, st, s.2⟩
    | some i =>
      let fact_num := i - 1
      let facts := st.facts token
      if 0 ≤ fact_num && fact_num < (facts.length : Int) then
        let removed := facts.getD fact_num.toNat ""
        let s := send_message env token (" Vergeten: " ++ removed)
        ⟨okFailed s.1, setFacts st token (facts.eraseIdx fact_num.toNat), s.2⟩
      else
        let s := send_message env token "Ongeldig nummer. Gebruik /facts om de lijst te zien."
        ⟨okFailed s.1, st, s.2⟩
  else if pyStartsWith norm "/task " then
    let task_text := pyStrip (pyDrop 6 stripped)
    if task_text == "" then
      let s := send_message env token
        "Gebruik: /task <taak titel>\n\nVoorbeeld: /task Offerte maken voor klant X"
      ⟨okFailed s.1, st, s.2⟩
    else
      let s0 := send_message env token ("Taak aanmaken: " ++ task_text ++ "...")
      let title :=
        if pyContains task_text "|" then pyStrip ⟨task_text.data.takeWhile (· ≠ '|')⟩
        else task_text
      let description :=
        if pyContains task_text "|" then
          some (pyStrip ⟨(task_text.data.dropWhile (· ≠ '|')).drop 1⟩)
        else none
      match env.taskCreate with
      | some c =>
        let s := send_message env token
          (" **Taak aangemaakt!**\n\n**Titel:** " ++ c.card_title ++ "\n**Board:** " ++
            c.board ++ "\n**Kolom:** " ++ c.stack ++ "\n\n " ++ c.url)
        ⟨okFailed s.1, st, s0.2 ++ [.createdTask title description] ++ s.2⟩
      | none =>
        let s := send_message env token (" Kon taak niet aanmaken: " ++ env.taskErr)
        ⟨okFailed s.1, st, s0.2 ++ [.createdTask title description] ++ s.2⟩
  else if norm == "/boards" then
    let boards_text :=
      if env.boards ≠ [] then
        "**Jouw Deck boards:**\n\n" ++
          String.join (env.boards.map (fun b => "- " ++ b.1 ++ " (ID: " ++ toString b.2 ++ ")\n"))
      else "Geen Deck boards gevonden."
    let s := send_message env token boards_text
    ⟨okFailed s.1, st, s.2⟩
  else if norm == "/help" then
    let help_text :=
      match get_task_bot_by_token st.taskDB token with
      | some task_bot => helpTextTask task_bot.card_title
      | none => helpTextGeneral
    let s := send_message env token help_text
    ⟨okFailed s.1, st, s.2⟩
  else if pyStartsWith norm "/share " then
    let fp := pyStrip (pyDrop 7 stripped)
    if fp == "" then
      let s := send_message env token "Gebruik: /share /pad/naar/bestand.pdf"
      ⟨okFailed s.1, st, s.2⟩
    else
      let file_path := if !pyStartsWith fp "/" then "/" ++ fp else fp
      let s0 := send_message env token ("Bestand delen: " ++ file_path ++ "...")
      if env.shareOk then
        let s := send_message env token (" Bestand gedeeld: " ++ file_path)
        ⟨okFailed s.1, st, s0.2 ++ [.sharedFile file_path token] ++ s.2⟩
      else
        let s := send_message env token (" Kon bestand niet delen: " ++ file_path ++
          "\n\nControleer of het pad correct is en of je toegang hebt tot het bestand.")
        ⟨okFailed s.1, st, s0.2 ++ [.sharedFile file_path token] ++ s.2⟩
  else if pyStartsWith norm "/upload " then
    let local_path := pyStrip (pyDrop 8 stripped)
    if local_path == "" then
      let s := send_message env token
        "Gebruik: /upload /pad/naar/lokaal/bestand.pdf\n\nVoorbeeld: /upload /home/maarten/OpenBooks/index.html"
      ⟨okFailed s.1, st, s.2⟩
    else if !env.fileExists local_path then
      let s := send_message env token (" Bestand niet gevonden: " ++ local_path)
      ⟨okFailed s.1, st, s.2⟩
    else
      let s0 := send_message env token ("Uploaden en delen: " ++ lastSeg local_path ++ "...")
      if env.uploadOk then
        let s := send_message env token
          ((if env.uploadShared then " Bestand geupload en gedeeld: " else " Bestand geupload maar delen mislukt: ") ++
            lastSeg local_path ++ "\n Nextcloud pad: " ++ env.uploadedPath)
        ⟨okFailed s.1, st, s0.2 ++ [.uploadedFile local_path token] ++ s.2⟩
      else
        let s := send_message env token
          (" Kon bestand niet uploaden: " ++ local_path ++ "\n\nFout: " ++ env.uploadErr)
        ⟨okFailed s.1, st, s0.2 ++ [.uploadedFile local_path token] ++ s.2⟩
  else if pyStartsWith norm "/zoek " then
    let search_query := pyStrip (pyDrop 6 stripped)
    if search_query == "" then
      let s := send_message env token
        "Gebruik: /zoek zoekterm\n\nVoorbeeld: /zoek offerte\nVoorbeeld: /zoek rapport.pdf"
      ⟨okFailed s.1, st, s.2⟩
    else
      let s0 := send_message env token (" Zoeken naar: " ++ search_query ++ "...")
      if env.searchResults ≠ [] then
        let result_text := "** Zoekresultaten voor " ++ search_query ++ ":**\n\n" ++
          String.join (env.searchResults.map (fun f => f.1 ++ "\n     " ++ f.2.1 ++ "\n\n")) ++
          "---\n **Gebruik** /share **om een bestand te delen**"
        let s := send_message env token result_text
        ⟨okFailed s.1, st, s0.2 ++ [.searchedFiles search_query] ++ s.2⟩
      else
        let s := send_message env token (" Geen bestanden gevonden voor: " ++ search_query)
        ⟨okFailed s.1, st, s0.2 ++ [.searchedFiles search_query] ++ s.2⟩
  else if pyStartsWith norm "/vind " then
    let search_query := pyStrip (pyDrop 6 stripped)
    if search_query == "" then
      let s := send_message env token
        "Gebruik: /vind zoekterm\n\nZoekt en deelt automatisch het eerste resultaat.\nVoorbeeld: /vind offerte-2024.pdf"
      ⟨okFailed s.1, st, s.2⟩
    else
      let s0 := send_message env token (" Zoeken en delen: " ++ search_query ++ "...")
      match env.vindResult with
      | some name =>
        let s := send_message env token (" Bestand gevonden en gedeeld:\n " ++ name)
        ⟨okFailed s.1, st, s0.2 ++ [.searchedFiles search_query] ++ s.2⟩
      | none =>
        let s := send_message env token (" " ++ env.vindErr)
        ⟨okFailed s.1, st, s0.2 ++ [.searchedFiles search_query] ++ s.2⟩
  else if pyStartsWith norm "/preview " then
    let fp := pyStrip (pyDrop 9 stripped)
    if fp == "" then
      let s := send_message env token
        "Gebruik: /preview /pad/naar/document\n\nOndersteunde formaten: PDF, ODT, DOCX, HTML"
      ⟨okFailed s.1, st, s.2⟩
    else
      let s0 := send_message env token (" Preview genereren: " ++ lastSeg fp ++ "...")
      if env.previewOk then
        let s := send_message env token ("** Preview: " ++ lastSeg fp ++ "**\n\n---\n\n" ++ env.previewText)
        ⟨okFailed s.1, st, s0.2 ++ [.previewedDoc fp] ++ s.2⟩
      else
        let s := send_message env token " Kon preview niet maken: Onbekende fout"
        ⟨okFailed s.1, st, s0.2 ++ [.previewedDoc fp] ++ s.2⟩
  else if norm == "/done" then
    match get_task_bot_by_token st.taskDB token with
    | some task_bot =>
      let r := complete_task env token task_bot st.taskDB
      if r.1 then
        let s := send_message env token (taskDoneText task_bot.card_title)
        let c := close_conversation env token
        ⟨(200, "ok"), { st with taskDB := r.2.1 }, r.2.2 ++ s.2 ++ c.2⟩
      else
        let s := send_message env token "Fout bij afronden van de taak."
        ⟨okFailed s.1, st, s.2⟩
    | none =>
      let s := send_message env token "Dit is geen taak-conversatie."
      ⟨okFailed s.1, st, s.2⟩
  else if norm == "/status" then
    match get_task_bot_by_token st.taskDB token with
    | some task_bot =>
      let status_msg := "**Taak Status**\n\n**Taak:** " ++ task_bot.card_title ++
        "\n**Status:** " ++ task_bot.status ++ "\n**Card ID:** " ++ toString task_bot.card_id ++
        "\n**Aangemaakt:** " ++ task_bot.created_at ++ "\n" ++
        (match task_bot.completed_at with
         | some d => "**Afgerond:** " ++ d
         | none => "") ++ "\n\nTyp /done om deze taak af te ronden."
      let s := send_message env token status_msg
      ⟨okFailed s.1, st, s.2⟩
    | none =>
      let s := send_message env token "Dit is geen taak-conversatie."
      ⟨okFailed s.1, st, s.2⟩
  else if norm == "/transcribe" then
    match fileInfo with
    | some fi =>
      if fi.url ≠ "" then
        let s0 := send_message env token
          ("Transcriberen van " ++ (if fi.name ≠ "" then fi.name else "audio") ++ "...")
        let response :=
          if env.downloadOk then
            match env.transcription with
            | some t => "**Transcriptie:**\n\n" ++ t
            | none => "Kon het audio bestand niet transcriberen. Probeer een ander formaat."
          else "Kon het audio bestand niet downloaden."
        let s := send_message env token response reply_to
        ⟨okFailed s.1, st, s0.2 ++ [.transcribedAudio fi.url] ++ s.2⟩
      else
        let s := send_message env token
          "Geen audio bestand gevonden. Stuur eerst een audio opname en reply dan met /transcribe"
        ⟨okFailed s.1, st, s.2⟩
    | none =>
      let s := send_message env token
        "Geen audio bestand gevonden. Stuur eerst een audio opname en reply dan met /transcribe"
      ⟨okFailed s.1, st, s.2⟩
  else
    dispatch_tail env token actor_name reply_to message_content fileInfo st

/-- Reply-to id derived from object.id: its last path segment when that
    is a pure digit string. -/
def replyToOf (objectId : String) : Option Nat :=
  match (if objectId ≠ "" then some (lastSeg objectId) else none) with
  | some mid =>
    if mid ≠ "" && mid.data.all Char.isDigit then some (digitsToNat mid.data) else none
  | none => none

/-- Source function handle_webhook(user): bot lookup (404 when the route
    has no configured identity), signature verification (401), JSON body
    decoding (400), activity-type and actor filtering and envelope
    unpacking (ignored), then the command/intent dispatch. -/
def handle_webhook (bots : String → Option BotConfig) (env : Env) (st : St) (req : Req) : Out :=
  match bots req.user with
  | none => ⟨(404, "Unknown bot"), st, []⟩
  | some bot_config =>
    if !verify_signature bot_config.secret req.randomHeader req.rawBody req.signature then
      ⟨(401, "Invalid signature"), st, []⟩
    else
      match req.parsed with
      | none => ⟨(400, "Invalid JSON"), st, []⟩
      | some data =>
        if !(data.activityType == "Create" || data.activityType == "Activity") then
          ⟨(200, "ignored"), st, []⟩
        else
          let message_content_raw := data.objectContent
          let token := if data.targetId ≠ "" then lastSeg data.targetId else ""
          let actor_name := data.actorName
          let reply_to : Option Nat := replyToOf data.objectId
          if data.actorType == "Application" then ⟨(200, "ignored"), st, []⟩
          else if message_content_raw == "" || token == "" then ⟨(200, "ignored"), st, []⟩
          else
            let message_content :=
              match data.contentMessage with
              | some m => m
              | none => message_content_raw
            dispatch_message env bot_config req.user token actor_name reply_to
              message_content req.fileInfo st

/- ===== Derived folds used by the bounded-retention claims ===== -/

/-- History stored for one token after a sequence of AppendMessage calls
    starting from an empty conversation. -/
def historyAfter (msgs : List Msg) : List Msg :=
  msgs.foldl (fun h m => add_to_history h m.role m.name m.content m.timestamp) []

/-- Fact list stored for one token after a sequence of AddKeyFact calls
    starting from an empty conversation. -/
def factsAfter (facts : List String) : List String :=
  facts.foldl (fun fs f => (add_key_fact fs f).1) []

/-- The suffix of the last n entries (saturating at the whole list). -/
def keepLast (n : Nat) (l : List α) : List α := l.drop (l.length - n)

/- ===== Helper lemmas ===== -/

theorem cap_eq_keepLast (n : Nat) (h : List α) :
    (if h.length > n then h.drop (h.length - n) else h) = keepLast n h := by
  unfold keepLast
  split
  · rfl
  · have hx : h.length - n = 0 := by omega
    rw [hx, List.drop_zero]

theorem keepLast_length_le (n : Nat) (l : List α) : (keepLast n l).length ≤ n := by
  unfold keepLast
  rw [List.length_drop]
  omega

theorem keepLast_of_length_le (n : Nat) (l : List α) (h : l.length ≤ n) :
    keepLast n l = l := by
  unfold keepLast
  have hx : l.length - n = 0 := by omega
  rw [hx, List.drop_zero]

theorem keepLast_append_keepLast (n : Nat) (u v : List α) :
    keepLast n (keepLast n u ++ v) = keepLast n (u ++ v) := by
  unfold keepLast
  rcases le_or_lt u.length n with h | h
  · have hx : u.length - n = 0 := by omega
    simp [hx]
  · have hlen : (u.drop (u.length - n)).length = n := by
      rw [List.length_drop]; omega
    have e1 : (u.drop (u.length - n) ++ v).length - n = v.length := by
      rw [List.length_append, hlen]; omega
    have e2 : (u ++ v).length - n = u.length + v.length - n := by
      rw [List.length_append]
    rw [e1, e2, List.drop_append_eq_append_drop, List.drop_append_eq_append_drop,
      List.drop_drop, hlen]
    have e3 : u.length - n + v.length = u.length + v.length - n := by omega
    have e4 : v.length - n = u.length + v.length - n - u.length := by omega
    rw [e3, e4]

theorem keepLast_sublist (n : Nat) (l : List α) : (keepLast n l).Sublist l :=
  List.drop_sublist _ _

theorem mem_keepLast_of_mem (n : Nat) (l : List α) (a : α) (h : a ∈ keepLast n l) : a ∈ l :=
  List.drop_subset _ _ h

/-- One AppendMessage step always leaves exactly the last 2W elements of
    the appended list. -/
theorem add_to_history_eq_keepLast (hist : List Msg) (m : Msg) :
    add_to_history hist m.role m.name m.content m.timestamp =
      keepLast (MAX_HISTORY_MESSAGES * 2) (hist ++ [m]) := by
  unfold add_to_history
  rw [cap_eq_keepLast]

theorem foldl_add_to_history (msgs : List Msg) :
    ∀ acc : List Msg,
      msgs.foldl (fun h m => add_to_history h m.role m.name m.content m.timestamp)
        (keepLast (MAX_HISTORY_MESSAGES * 2) acc) =
      keepLast (MAX_HISTORY_MESSAGES * 2) (acc ++ msgs) := by
  induction msgs with
  | nil => intro acc; simp
  | cons m ms ih =>
    intro acc
    rw [List.foldl_cons, add_to_history_eq_keepLast, keepLast_append_keepLast, ih (acc ++ [m]),
      ← List.append_cons]

theorem historyAfter_eq (msgs : List Msg) :
    historyAfter msgs = keepLast (MAX_HISTORY_MESSAGES * 2) msgs := by
  unfold historyAfter
  have h0 : ([] : List Msg) = keepLast (MAX_HISTORY_MESSAGES * 2) [] := rfl
  rw [h0, foldl_add_to_history]
  simp

theorem add_key_fact_mem (fs : List String) (fact : String) (h : fact ∈ fs) :
    add_key_fact fs fact = (fs, false) := by
  unfold add_key_fact
  have hc : fs.contains fact = true := by simpa using h
  rw [hc]
  simp only [reduceIte]

theorem add_key_fact_not_mem (fs : List String) (fact : String) (h : fact ∉ fs) :
    add_key_fact fs fact = (keepLast 20 (fs ++ [fact]), true) := by
  unfold add_key_fact
  have hc : fs.contains fact = false := by simpa using h
  rw [hc]
  simp only [reduceIte]
  rw [cap_eq_keepLast]
  rfl

theorem foldl_add_key_fact (fs : List String) :
    ∀ acc : List String, (acc ++ fs).Nodup →
      fs.foldl (fun l f => (add_key_fact l f).1) (keepLast 20 acc) = keepLast 20 (acc ++ fs) := by
  induction fs with
  | nil => intro acc _; simp
  | cons f rest ih =>
    intro acc hnd
    have hfacc : f ∉ acc := by
      intro hmem
      rcases List.nodup_append.mp hnd with ⟨_, _, hdisj⟩
      exact hdisj hmem (List.mem_cons_self f rest)
    have hstep : (add_key_fact (keepLast 20 acc) f).1 = keepLast 20 (acc ++ [f]) := by
      rw [add_key_fact_not_mem _ _ (fun hm => hfacc (mem_keepLast_of_mem _ _ _ hm)),
        keepLast_append_keepLast]
    rw [List.foldl_cons, hstep, ih (acc ++ [f]) (by rwa [← List.append_cons]),
      ← List.append_cons]

theorem factsAfter_nodup_eq (facts : List String) (h : facts.Nodup) :
    factsAfter facts = keepLast 20 facts := by
  unfold factsAfter
  have h0 : ([] : List String) = keepLast 20 [] := rfl
  rw [h0, foldl_add_key_fact facts [] (by simpa using h)]
  simp

theorem factsAfter_inv (facts : List String) :
    ∀ acc : List String, acc.Nodup → acc.length ≤ 20 →
      (facts.foldl (fun l f => (add_key_fact l f).1) acc).Nodup ∧
      (facts.foldl (fun l f => (add_key_fact l f).1) acc).length ≤ 20 := by
  induction facts with
  | nil => intro acc h1 h2; exact ⟨h1, h2⟩
  | cons f rest ih =>
    intro acc h1 h2
    rw [List.foldl_cons]
    by_cases hf : f ∈ acc
    · have hstep : (add_key_fact acc f).1 = acc := by rw [add_key_fact_mem _ _ hf]
      rw [hstep]
      exact ih acc h1 h2
    · have hstep : (add_key_fact acc f).1 = keepLast 20 (acc ++ [f]) := by
        rw [add_key_fact_not_mem _ _ hf]
      rw [hstep]
      apply ih
      · apply List.Nodup.sublist (keepLast_sublist _ _)
        apply List.Nodup.append h1 (List.nodup_singleton f)
        intro a ha hb
        rw [List.mem_singleton] at hb
        exact hf (hb ▸ ha)
      · exact keepLast_length_le _ _

/-- C3: after any sequence of AppendMessage calls on one token starting
    from an empty conversation, the stored history is exactly the suffix
    of the most recent 2W appended messages in call order (W = 50, so at
    most 100 entries are ever retained). -/
theorem C3_history_bound (msgs : List Msg) :
    MAX_HISTORY_MESSAGES = 50 ∧
    historyAfter msgs = msgs.drop (msgs.length - MAX_HISTORY_MESSAGES * 2) ∧
    (historyAfter msgs).length ≤ MAX_HISTORY_MESSAGES * 2 := by
  refine ⟨rfl, ?_, ?_⟩
  · rw [historyAfter_eq]; rfl
  · rw [historyAfter_eq]; exact keepLast_length_le _ _

/-- C4: AddKeyFact returns false without mutation on a verbatim duplicate
    and otherwise appends (evicting beyond 20, oldest first); from an
    empty conversation, appending distinct facts retains exactly the most
    recent 20 (21 distinct facts drop precisely the oldest), and the
    stored list never exceeds 20 entries nor contains a duplicate. -/
theorem C4_fact_dedup_cap :
    (∀ (fs : List String) (fact : String), fact ∈ fs → add_key_fact fs fact = (fs, false)) ∧
    (∀ (fs : List String) (fact : String), fact ∉ fs →
      add_key_fact fs fact = (keepLast 20 (fs ++ [fact]), true)) ∧
    (∀ facts : List String, facts.Nodup → factsAfter facts = facts.drop (facts.length - 20)) ∧
    (∀ facts : List String, facts.Nodup → facts.length = 21 → factsAfter facts = facts.drop 1) ∧
    (∀ facts : List String, (factsAfter facts).length ≤ 20 ∧ (factsAfter facts).Nodup) := by
  have h3 : ∀ facts : List String, facts.Nodup →
      factsAfter facts = facts.drop (facts.length - 20) :=
    fun facts h => factsAfter_nodup_eq facts h
  refine ⟨fun fs fact h => add_key_fact_mem fs fact h,
    fun fs fact h => add_key_fact_not_mem fs fact h, h3, ?_, ?_⟩
  · intro facts hnd hlen
    rw [h3 facts hnd, hlen]
  · intro facts
    have := factsAfter_inv facts [] (List.nodup_nil) (by simp)
    exact ⟨this.2, this.1⟩

/-- C4 witness: the dedup case, the append case, and the 21-distinct-facts
    eviction at concrete inputs. -/
theorem C4_fact_dedup_cap_witness :
    add_key_fact ["a"] "a" = (["a"], false) ∧
    add_key_fact ["a"] "b" = (keepLast 20 (["a"] ++ ["b"]), true) ∧
    factsAfter ["f01", "f02", "f03", "f04", "f05", "f06", "f07", "f08", "f09", "f10",
      "f11", "f12", "f13", "f14", "f15", "f16", "f17", "f18", "f19", "f20", "f21"] =
      (["f01", "f02", "f03", "f04", "f05", "f06", "f07", "f08", "f09", "f10",
        "f11", "f12", "f13", "f14", "f15", "f16", "f17", "f18", "f19", "f20", "f21"]).drop 1 :=
  ⟨C4_fact_dedup_cap.1 ["a"] "a" (by decide),
   C4_fact_dedup_cap.2.1 ["a"] "b" (by decide),
   C4_fact_dedup_cap.2.2.2.1 _ (by decide) (by decide)⟩

/-- C5: truncation returns content of length at most L = 500 unchanged;
    longer content becomes a non-empty prefix of the content, the elision
    marker, and a non-empty suffix of the content, with total length at
    most L plus the marker length. -/
theorem C5_truncate_message (content : String) :
    MAX_MESSAGE_LENGTH_IN_HISTORY = 500 ∧
    (pyLen content ≤ 500 → truncate_message content = content) ∧
    (pyLen content > 500 →
      ∃ p s : String, p ≠ "" ∧ s ≠ "" ∧
        truncate_message content = p ++ elisionMarker ++ s ∧
        (∃ r, content = p ++ r) ∧ (∃ r, content = r ++ s) ∧
        pyLen (truncate_message content) ≤ 500 + pyLen elisionMarker) := by
  have h240 : (500 - 20) / 2 = 240 := by norm_num
  refine ⟨rfl, ?_, ?_⟩
  · intro h
    simp [truncate_message, h]
  · intro h
    have hnot : ¬ (pyLen content ≤ 500) := by omega
    have htr : truncate_message content =
        pyTake 240 content ++ elisionMarker ++ pyTakeLast 240 content := by
      simp [truncate_message, hnot, h240]
    obtain ⟨l⟩ := content
    have hlen : l.length > 500 := h
    refine ⟨pyTake 240 ⟨l⟩, pyTakeLast 240 ⟨l⟩, ?_, ?_, htr, ⟨pyDrop 240 ⟨l⟩, ?_⟩,
      ⟨pyTake (l.length - 240) ⟨l⟩, ?_⟩, ?_⟩
    · intro he
      have hd : List.take 240 l = [] := congrArg String.data he
      have : (List.take 240 l).length = 240 := by rw [List.length_take]; omega
      rw [hd] at this
      simp at this
    · intro he
      have he2 : pyTakeLast 240 ⟨l⟩ = ⟨List.drop (l.length - 240) l⟩ := by
        simp [pyTakeLast]
      rw [he2] at he
      have hd : List.drop (l.length - 240) l = [] := congrArg String.data he
      have : (List.drop (l.length - 240) l).length = 240 := by rw [List.length_drop]; omega
      rw [hd] at this
      simp at this
    · show (⟨l⟩ : String) = ⟨List.take 240 l ++ List.drop 240 l⟩
      exact congrArg String.mk (List.take_append_drop 240 l).symm
    · have he2 : pyTakeLast 240 (⟨l⟩ : String) = ⟨List.drop (l.length - 240) l⟩ := by
        simp [pyTakeLast]
      rw [he2]
      show (⟨l⟩ : String) = ⟨List.take (l.length - 240) l ++ List.drop (l.length - 240) l⟩
      exact congrArg String.mk (List.take_append_drop (l.length - 240) l).symm
    · rw [htr]
      have hm : pyLen elisionMarker = 18 := rfl
      simp [pyLen, pyTake, pyTakeLast, hm, String.data_append, List.length_append]
      omega

/-- C5 witness: both regimes at concrete inputs, a four-character string
    and a 501-character string. -/
theorem C5_truncate_message_witness :
    truncate_message "kort" = "kort" ∧
    (∃ p s : String, p ≠ "" ∧ s ≠ "" ∧
      truncate_message (String.mk (List.replicate 501 'x')) = p ++ elisionMarker ++ s ∧
      (∃ r, String.mk (List.replicate 501 'x') = p ++ r) ∧
      (∃ r, String.mk (List.replicate 501 'x') = r ++ s) ∧
      pyLen (truncate_message (String.mk (List.replicate 501 'x'))) ≤ 500 + pyLen elisionMarker) :=
  ⟨(C5_truncate_message "kort").2.1 (by decide),
   (C5_truncate_message (String.mk (List.replicate 501 'x'))).2.2 (by decide)⟩

/-- C6: the classifier is a pure function of the lower-cased text that
    scans the explicit-completion phrase set before the confirmation set,
    each by case-insensitive substring match; the three reference inputs
    classify as complete, confirm and none, and the verdict is invariant
    under case changes of the input. -/
theorem C6_completion_classifier :
    detect_completion_intent "taak is klaar" = some Intent.complete ∧
    detect_completion_intent "is de taak klaar?" = some Intent.confirm ∧
    detect_completion_intent "hoe gaat het" = none ∧
    (∀ m₁ m₂ : String, pyLower m₁ = pyLower m₂ →
      detect_completion_intent m₁ = detect_completion_intent m₂) ∧
    (∀ m : String,
      explicit_phrases.any (fun p => pyContains (pyStrip (pyLower m)) p) = true →
      detect_completion_intent m = some Intent.complete) ∧
    (∀ m : String,
      explicit_phrases.any (fun p => pyContains (pyStrip (pyLower m)) p) = false →
      confirm_phrases.any (fun p => pyContains (pyStrip (pyLower m)) p) = true →
      detect_completion_intent m = some Intent.confirm) ∧
    (∀ m : String,
      explicit_phrases.any (fun p => pyContains (pyStrip (pyLower m)) p) = false →
      confirm_phrases.any (fun p => pyContains (pyStrip (pyLower m)) p) = false →
      detect_completion_intent m = none) := by
  refine ⟨by decide, by decide, by decide, ?_, ?_, ?_, ?_⟩
  · intro m₁ m₂ hml
    unfold detect_completion_intent
    rw [hml]
  · intro m hm
    simp only [detect_completion_intent]
    rw [hm]
    rfl
  · intro m hm1 hm2
    simp only [detect_completion_intent]
    rw [hm1, hm2]
    rfl
  · intro m hm1 hm2
    simp only [detect_completion_intent]
    rw [hm1, hm2]
    rfl

/-- C6 witness: the case-invariance component and each branch of the
    ordered scan applied at concrete inputs. -/
theorem C6_completion_classifier_witness :
    detect_completion_intent "TAAK Is KlAaR" = detect_completion_intent "taak is klaar" ∧
    detect_completion_intent "nu taak afronden dus" = some Intent.complete ∧
    detect_completion_intent "kunnen we afsluiten nu" = some Intent.confirm ∧
    detect_completion_intent "hallo daar" = none :=
  ⟨C6_completion_classifier.2.2.2.1 _ _ (by decide),
   C6_completion_classifier.2.2.2.2.1 _ (by decide),
   C6_completion_classifier.2.2.2.2.2.1 _ (by decide) (by decide),
   C6_completion_classifier.2.2.2.2.2.2 _ (by decide) (by decide)⟩

theorem verify_correct_sig (s r b : String) (h : s ≠ "") :
    verify_signature s r b (hmacSha256Hex s (r ++ b)) = true := by
  unfold verify_signature
  rw [if_neg h]
  exact beq_self_eq_true _

/-- C1 (amended): for a non-empty secret, Verify accepts the HMAC-SHA256
    digest of nonce plus body; for non-empty secrets Verify accepts a
    signature exactly when its lower-casing equals the lower-cased
    recomputed digest, so a change of body, nonce or signature is
    rejected precisely when it alters that comparison; and Verify returns
    false whenever the secret is the empty string. -/
theorem C1_signature_verification (secret nonce body signature : String) :
    (secret ≠ "" →
      verify_signature secret nonce body (hmacSha256Hex secret (nonce ++ body)) = true) ∧
    (secret ≠ "" → (verify_signature secret nonce body signature = true ↔
      pyLower (hmacSha256Hex secret (nonce ++ body)) = pyLower signature)) ∧
    verify_signature "" nonce body signature = false := by
  refine ⟨fun h => verify_correct_sig _ _ _ h, fun h => ?_, rfl⟩
  unfold verify_signature
  rw [if_neg h]
  exact beq_iff_eq

/-- C1 witness: the accepting case and the acceptance characterisation at
    concrete inputs with a non-empty secret. -/
theorem C1_signature_verification_witness :
    verify_signature "k" "r1" "BODY" (hmacSha256Hex "k" ("r1" ++ "BODY")) = true ∧
    (verify_signature "k" "r1" "BODY" "zz" = true ↔
      pyLower (hmacSha256Hex "k" ("r1" ++ "BODY")) = pyLower "zz") :=
  ⟨(C1_signature_verification "k" "r1" "BODY" "zz").1 (by decide),
   (C1_signature_verification "k" "r1" "BODY" "zz").2.1 (by decide)⟩

/-- C1 counterexample: upper-casing the first character of the correct
    hex signature is a change of exactly one character, yet Verify still
    returns true, refuting that changing any single character of the
    provided signature makes Verify return false. -/
theorem C1_signature_verification_counterexample :
    hmacSha256Hex "s3cr3t" ("abc123" ++ "hello world") =
      "e42d59621b2a85677daa07be56cce85c2cf877c578c996c7354771c49c2a1a69" ∧
    "E42d59621b2a85677daa07be56cce85c2cf877c578c996c7354771c49c2a1a69" ≠
      "e42d59621b2a85677daa07be56cce85c2cf877c578c996c7354771c49c2a1a69" ∧
    ("E42d59621b2a85677daa07be56cce85c2cf877c578c996c7354771c49c2a1a69".data.zip
      "e42d59621b2a85677daa07be56cce85c2cf877c578c996c7354771c49c2a1a69".data).countP
        (fun q => q.1 != q.2) = 1 ∧
    "E42d59621b2a85677daa07be56cce85c2cf877c578c996c7354771c49c2a1a69".length =
      "e42d59621b2a85677daa07be56cce85c2cf877c578c996c7354771c49c2a1a69".length ∧
    verify_signature "s3cr3t" "abc123" "hello world"
      "E42d59621b2a85677daa07be56cce85c2cf877c578c996c7354771c49c2a1a69" = true :=
  ⟨by decide, by decide, by decide, by decide, by decide⟩

theorem dispatch_message_fallthrough
    (env : Env) (cfg : BotConfig) (user tok actor : String) (rt : Option Nat)
    (fi : Option FileInfo) (st : St) (m : String)
    (h1 : (pyLower (pyStrip m) == "/reset") = false)
    (h2 : (pyLower (pyStrip m) == "/history") = false)
    (h3 : (pyLower (pyStrip m) == "/whoami") = false)
    (h4 : pyStartsWith (pyLower (pyStrip m)) "/remember " = false)
    (h5 : (pyLower (pyStrip m) == "/facts") = false)
    (h6 : pyStartsWith (pyLower (pyStrip m)) "/forget " = false)
    (h7 : pyStartsWith (pyLower (pyStrip m)) "/task " = false)
    (h8 : (pyLower (pyStrip m) == "/boards") = false)
    (h9 : (pyLower (pyStrip m) == "/help") = false)
    (h10 : pyStartsWith (pyLower (pyStrip m)) "/share " = false)
    (h11 : pyStartsWith (pyLower (pyStrip m)) "/upload " = false)
    (h12 : pyStartsWith (pyLower (pyStrip m)) "/zoek " = false)
    (h13 : pyStartsWith (pyLower (pyStrip m)) "/vind " = false)
    (h14 : pyStartsWith (pyLower (pyStrip m)) "/preview " = false)
    (h15 : (pyLower (pyStrip m) == "/done") = false)
    (h16 : (pyLower (pyStrip m) == "/status") = false)
    (h17 : (pyLower (pyStrip m) == "/transcribe") = false) :
    dispatch_message env cfg user tok actor rt m fi st =
      dispatch_tail env tok actor rt m fi st := by
  simp only [dispatch_message, h1, h2, h3, h4, h5, h6, h7, h8, h9, h10, h11, h12, h13, h14,
    h15, h16, h17, Bool.false_eq_true, if_false]

theorem tail_complete_wzk
    (env : Env) (tok actor : String) (rt : Option Nat)
    (fi : Option FileInfo) (st : St) (tb : TaskBot)
    (htb : st.taskDB tok = some tb)
    (hstat : tb.status = "active")
    (hdb : env.dbOk = true) :
    dispatch_tail env tok actor rt "we zijn klaar" fi st =
      ⟨(200, "ok"),
       ⟨st.history, st.facts,
        fun t =>
          if t = tok then some { tb with status := "completed", completed_at := some env.now }
          else st.taskDB t⟩,
       (move_card_to_done env tb.board_id tb.stack_id tb.card_id).2 ++
         [.sent tok (taskDoneText tb.card_title) none, .closedConv tok]⟩ := by
  have hdet : detect_completion_intent "we zijn klaar" = some Intent.complete := by decide
  have hfun : (fun t =>
      if t = tok then
        match st.taskDB t with
        | some tb2 => some { tb2 with status := "completed", completed_at := some env.now }
        | none => none
      else st.taskDB t) =
      fun t =>
        if t = tok then some { tb with status := "completed", completed_at := some env.now }
        else st.taskDB t := by
    funext t
    by_cases ht : t = tok
    · subst ht; rw [if_pos rfl, if_pos rfl, htb]
    · rw [if_neg ht, if_neg ht]
  simp only [dispatch_tail, get_task_bot_by_token, htb, hstat, hdet, complete_task, hdb,
    beq_self_eq_true, send_message, close_conversation, hfun, Bool.false_eq_true, if_false,
    if_true, List.append_assoc, List.singleton_append]

theorem isPySpace_pyLowerChar (c : Char) : isPySpace (pyLowerChar c) = isPySpace c := by
  unfold pyLowerChar
  split
  · rename_i h
    have h1 : 65 ≤ c.toNat ∧ c.toNat ≤ 90 := by
      constructor <;> [exact Nat.le_of_ble_eq_true (by simpa using (Bool.and_elim_left h));
        exact Nat.le_of_ble_eq_true (by simpa using (Bool.and_elim_right h))]
    have hv : (c.toNat + 32).isValidChar := Or.inl (by omega)
    have htn : (Char.ofNat (c.toNat + 32)).toNat = c.toNat + 32 := by
      unfold Char.ofNat
      rw [dif_pos hv]
      rfl
    have hf : ∀ d : Char, 33 ≤ d.toNat → isPySpace d = false := by
      intro d hd
      have hne : ∀ e : Char, d.toNat ≠ e.toNat → (d == e) = false := by
        intro e hn
        rw [beq_eq_false_iff_ne]
        intro hde
        exact hn (congrArg Char.toNat hde)
      unfold isPySpace
      rw [hne ' ' (by simp [show (' ' : Char).toNat = 32 from rfl]; omega),
        hne '\t' (by simp [show ('\t' : Char).toNat = 9 from rfl]; omega),
        hne '\n' (by simp [show ('\n' : Char).toNat = 10 from rfl]; omega),
        hne '\r' (by simp [show ('\r' : Char).toNat = 13 from rfl]; omega),
        hne '\x0b' (by simp [show ('\x0b' : Char).toNat = 11 from rfl]; omega),
        hne '\x0c' (by simp [show ('\x0c' : Char).toNat = 12 from rfl]; omega)]
      rfl
    rw [hf _ (by omega), hf c (by omega)]
  · rfl

theorem pyLower_pyStrip (s : String) : pyLower (pyStrip s) = pyStrip (pyLower s) := by
  show (⟨((((s.data.dropWhile isPySpace).reverse.dropWhile isPySpace).reverse).map
      pyLowerChar : List Char)⟩ : String) =
    ⟨(((s.data.map pyLowerChar).dropWhile isPySpace).reverse.dropWhile isPySpace).reverse⟩
  apply congrArg String.mk
  have hcomp : (isPySpace ∘ pyLowerChar) = isPySpace := funext isPySpace_pyLowerChar
  rw [List.dropWhile_map, hcomp, ← List.map_reverse, List.dropWhile_map, hcomp,
    ← List.map_reverse]

def confirmPromptText (card_title : String) : String :=
  "Wil je de taak \"" ++ card_title ++
  "\" afronden?\n\nTyp **ja** of **/done** om te bevestigen, of stel nog een vraag als je verder wilt werken."

theorem tail_confirm_kwa
    (env : Env) (tok actor : String) (rt : Option Nat)
    (fi : Option FileInfo) (st : St) (tb : TaskBot)
    (htb : st.taskDB tok = some tb)
    (hstat : tb.status = "active") :
    dispatch_tail env tok actor rt "kunnen we afronden" fi st =
      ⟨(200, "ok"),
       setHist st tok
         (add_to_history
           (add_to_history (st.history tok) "user" actor "kunnen we afronden" env.now)
           "assistant" "Claude" "Vraag om bevestiging voor afronden taak" env.now),
       [.sent tok (confirmPromptText tb.card_title) none]⟩ := by
  have hdet : detect_completion_intent "kunnen we afronden" = some Intent.confirm := by decide
  simp only [dispatch_tail, get_task_bot_by_token, htb, hstat, hdet, beq_self_eq_true,
    send_message, if_true, if_false, Bool.false_eq_true, confirmPromptText]

theorem tail_affirm
    (env : Env) (tok actor : String) (rt : Option Nat) (m : String)
    (fi : Option FileInfo) (st : St) (tb : TaskBot) (lm : Msg)
    (htb : st.taskDB tok = some tb)
    (hnorm : pyLower (pyStrip m) ∈ affirmation_words)
    (hlast : (st.history tok).getLast? = some lm)
    (hcont : pyContains lm.content "bevestiging voor afronden" = true)
    (hdb : env.dbOk = true) :
    dispatch_tail env tok actor rt m fi st =
      ⟨(200, "ok"),
       ⟨st.history, st.facts,
        fun t =>
          if t = tok then some { tb with status := "completed", completed_at := some env.now }
          else st.taskDB t⟩,
       (move_card_to_done env tb.board_id tb.stack_id tb.card_id).2 ++
         [.sent tok (taskDoneText tb.card_title) none, .closedConv tok]⟩ := by
  have hsl : pyStrip (pyLower m) = pyLower (pyStrip m) := (pyLower_pyStrip m).symm
  have hdet : detect_completion_intent m = none := by
    simp only [affirmation_words, List.mem_cons, List.mem_singleton,
      List.not_mem_nil, or_false] at hnorm
    rcases hnorm with hn | hn | hn | hn | hn | hn <;>
      · simp only [detect_completion_intent, hsl, hn]
        decide
  have hmem : affirmation_words.contains (pyLower (pyStrip m)) = true := by
    simpa using hnorm
  have hfun : (fun t =>
      if t = tok then
        match st.taskDB t with
        | some tb2 => some { tb2 with status := "completed", completed_at := some env.now }
        | none => none
      else st.taskDB t) =
      fun t =>
        if t = tok then some { tb with status := "completed", completed_at := some env.now }
        else st.taskDB t := by
    funext t
    by_cases ht : t = tok
    · subst ht; rw [if_pos rfl, if_pos rfl, htb]
    · rw [if_neg ht, if_neg ht]
  simp only [dispatch_tail, get_task_bot_by_token, htb, hdet, hmem, hlast, hcont,
    complete_task, hdb, send_message, close_conversation, hfun, if_true, if_false,
    Bool.false_eq_true, ite_self, List.append_assoc, List.singleton_append]

theorem dispatch_done_ok
    (env : Env) (cfg : BotConfig) (user tok actor : String) (rt : Option Nat)
    (fi : Option FileInfo) (st : St) (tb : TaskBot)
    (htb : st.taskDB tok = some tb)
    (hdb : env.dbOk = true) :
    dispatch_message env cfg user tok actor rt "/done" fi st =
      ⟨(200, "ok"),
       ⟨st.history, st.facts,
        fun t =>
          if t = tok then some { tb with status := "completed", completed_at := some env.now }
          else st.taskDB t⟩,
       (move_card_to_done env tb.board_id tb.stack_id tb.card_id).2 ++
         [.sent tok (taskDoneText tb.card_title) none, .closedConv tok]⟩ := by
  have hnorm : pyLower (pyStrip "/done") = "/done" := by decide
  have w1 : pyStartsWith "/done" "/remember " = false := by decide
  have w2 : pyStartsWith "/done" "/forget " = false := by decide
  have w3 : pyStartsWith "/done" "/task " = false := by decide
  have w4 : pyStartsWith "/done" "/share " = false := by decide
  have w5 : pyStartsWith "/done" "/upload " = false := by decide
  have w6 : pyStartsWith "/done" "/zoek " = false := by decide
  have w7 : pyStartsWith "/done" "/vind " = false := by decide
  have w8 : pyStartsWith "/done" "/preview " = false := by decide
  have hfun : (fun t =>
      if t = tok then
        match st.taskDB t with
        | some tb2 => some { tb2 with status := "completed", completed_at := some env.now }
        | none => none
      else st.taskDB t) =
      fun t =>
        if t = tok then some { tb with status := "completed", completed_at := some env.now }
        else st.taskDB t := by
    funext t
    by_cases ht : t = tok
    · subst ht; rw [if_pos rfl, if_pos rfl, htb]
    · rw [if_neg ht, if_neg ht]
  simp only [dispatch_message, hnorm, w1, w2, w3, w4, w5, w6, w7, w8, String.reduceBEq,
    get_task_bot_by_token, htb, complete_task, hdb, send_message, close_conversation, hfun,
    if_true, if_false, Bool.false_eq_true, beq_self_eq_true, List.append_assoc,
    List.singleton_append]

theorem dispatch_done_fail
    (env : Env) (cfg : BotConfig) (user tok actor : String) (rt : Option Nat)
    (fi : Option FileInfo) (st : St) (tb : TaskBot)
    (htb : st.taskDB tok = some tb)
    (hdb : env.dbOk = false) :
    dispatch_message env cfg user tok actor rt "/done" fi st =
      ⟨okFailed env.sendOk, st, [.sent tok "Fout bij afronden van de taak." none]⟩ := by
  have hnorm : pyLower (pyStrip "/done") = "/done" := by decide
  have w1 : pyStartsWith "/done" "/remember " = false := by decide
  have w2 : pyStartsWith "/done" "/forget " = false := by decide
  have w3 : pyStartsWith "/done" "/task " = false := by decide
  have w4 : pyStartsWith "/done" "/share " = false := by decide
  have w5 : pyStartsWith "/done" "/upload " = false := by decide
  have w6 : pyStartsWith "/done" "/zoek " = false := by decide
  have w7 : pyStartsWith "/done" "/vind " = false := by decide
  have w8 : pyStartsWith "/done" "/preview " = false := by decide
  simp only [dispatch_message, hnorm, w1, w2, w3, w4, w5, w6, w7, w8, String.reduceBEq,
    get_task_bot_by_token, htb, complete_task, hdb, send_message,
    if_true, if_false, Bool.false_eq_true, beq_self_eq_true]

theorem handle_webhook_unpack (bots : String → Option BotConfig) (env : Env) (st : St) (req : Req)
    (cfg : BotConfig) (e : Envelope)
    (hb : bots req.user = some cfg)
    (hv : verify_signature cfg.secret req.randomHeader req.rawBody req.signature = true)
    (hp : req.parsed = some e)
    (ha : e.activityType = "Create")
    (hact : e.actorType ≠ "Application")
    (hco : e.objectContent ≠ "")
    (hto : lastSeg e.targetId ≠ "")
    (htid : e.targetId ≠ "") :
    handle_webhook bots env st req =
      dispatch_message env cfg req.user (lastSeg e.targetId) e.actorName
        (replyToOf e.objectId)
        (match e.contentMessage with | some m => m | none => e.objectContent)
        req.fileInfo st := by
  have hact2 : (e.actorType == "Application") = false := by simpa using hact
  have hco2 : (e.objectContent == "") = false := by simpa using hco
  have hto2 : (lastSeg e.targetId == "") = false := by simpa using hto
  unfold handle_webhook
  rw [hb]
  simp only [hv, hp, ha, hact2, hco2, hto2, htid, ne_eq, not_false_iff, if_true, Bool.not_true,
    Bool.false_or, Bool.or_false, beq_self_eq_true, Bool.true_or, Bool.not_false, if_false,
    Bool.false_eq_true, reduceIte, not_false_eq_true]

theorem move_card_effects (env : Env) (b s c : Nat) (e : Eff)
    (he : e ∈ (move_card_to_done env b s c).2) :
    e = .listedStacks b ∨ ∃ toS, e = .movedCard b s c toS := by
  simp only [move_card_to_done] at he
  rcases hs : env.stacksResult with _ | sl
  · rw [hs] at he
    simp at he
    exact Or.inl he
  · rw [hs] at he
    rcases hfind : sl.find? (fun stack =>
        pyContains (pyLower stack.title) "klaar" || pyContains (pyLower stack.title) "done" ||
          pyContains (pyLower stack.title) "afgerond") with _ | ds
    · simp only [hfind] at he
      simp at he
      exact Or.inl he
    · simp only [hfind] at he
      simp at he
      rcases he with he | he
      · exact Or.inl he
      · exact Or.inr ⟨ds.id, he⟩

theorem sent_not_in_move (env : Env) (b s c : Nat) (t x : String) (r : Option Nat) :
    Eff.sent t x r ∉ (move_card_to_done env b s c).2 := by
  intro h
  rcases move_card_effects env b s c _ h with h1 | ⟨toS, h1⟩ <;> exact Eff.noConfusion h1

theorem claude_not_in_move (env : Env) (b s c : Nat) (p : String) :
    Eff.claudeCalled p ∉ (move_card_to_done env b s c).2 := by
  intro h
  rcases move_card_effects env b s c _ h with h1 | ⟨toS, h1⟩ <;> exact Eff.noConfusion h1

theorem move_card_no_done_stack (env : Env) (b s c : Nat) (sl : List Stack)
    (hs : env.stacksResult = some sl)
    (hnone : ∀ stack ∈ sl,
      (pyContains (pyLower stack.title) "klaar" || pyContains (pyLower stack.title) "done" ||
        pyContains (pyLower stack.title) "afgerond") = false) :
    move_card_to_done env b s c = (false, [.listedStacks b]) := by
  have hfind : sl.find? (fun stack =>
      pyContains (pyLower stack.title) "klaar" || pyContains (pyLower stack.title) "done" ||
        pyContains (pyLower stack.title) "afgerond") = none := by
    rw [List.find?_eq_none]
    intro x hx
    simp [hnone x hx]
  simp only [move_card_to_done]
  rw [hs]
  simp only [hfind]

/- ===== Concrete scenario fixtures ===== -/

def sampleCfg : BotConfig := ⟨"k", "erp", "cfgdir", "wd", "ncu", "ncp"⟩

def sampleBots : String → Option BotConfig :=
  fun u => if u = "maarten" then some sampleCfg else none

def sampleEnv : Env :=
  { sendOk := true, dbOk := true, stacksResult := some [⟨9, "Klaar"⟩], moveOk := true,
    closeOk := true, claudeResponse := "antwoord", now := "2024-01-01T10:00:00",
    fmtTime := fun _ => "01/01 10:00", taskCreate := none, taskErr := "fout", boards := [],
    shareOk := true, fileExists := fun _ => false, uploadOk := false, uploadShared := false,
    uploadedPath := "", uploadErr := "", searchResults := [], vindResult := none,
    vindErr := "niets", previewOk := false, previewText := "", downloadOk := false,
    transcription := none }

def sampleTaskBot : TaskBot := ⟨7, 3, 42, "Testtaak", "", "active", "2024-01-01", none⟩

def sampleSt : St :=
  ⟨fun _ => [], fun _ => [], fun t => if t = "tok" then some sampleTaskBot else none⟩

def mkEnvelope (msg : String) : Envelope := ⟨"Create", "Person", "Maarten", msg, none, "msg/5", "room/tok"⟩

def mkReq (msg : String) : Req :=
  ⟨"maarten", hmacSha256Hex "k" ("r1" ++ "RAWBODY"), "r1", "RAWBODY", some (mkEnvelope msg), none⟩

/-- State whose conversation tok history ends in the completion
    confirmation prompt. -/
def stPrompt : St :=
  ⟨fun t => if t = "tok" then
      [⟨"user", "Maarten", "kunnen we afronden", "T0"⟩,
       ⟨"assistant", "Claude", "Vraag om bevestiging voor afronden taak", "T0"⟩]
    else [],
   fun _ => [],
   fun t => if t = "tok" then some sampleTaskBot else none⟩

/- ===== The claims about the webhook handler ===== -/

/-- C2: a request on a route with no configured bot identity yields 404
    with no state change, no outbound action, and a response independent
    of the signature (so no verification is attempted); a request whose
    signature does not verify yields 401 with no state change, for every
    value of the parsed body (so before any JSON content is used); an
    authenticated request whose body fails JSON decoding yields 400 with
    no state change. -/
theorem C2_webhook_error_boundaries (bots : String → Option BotConfig) (env : Env) (st : St)
    (req : Req) :
    (bots req.user = none →
      handle_webhook bots env st req = ⟨(404, "Unknown bot"), st, []⟩) ∧
    (∀ cfg, bots req.user = some cfg →
      verify_signature cfg.secret req.randomHeader req.rawBody req.signature = false →
      handle_webhook bots env st req = ⟨(401, "Invalid signature"), st, []⟩) ∧
    (∀ cfg, bots req.user = some cfg →
      verify_signature cfg.secret req.randomHeader req.rawBody req.signature = true →
      req.parsed = none →
      handle_webhook bots env st req = ⟨(400, "Invalid JSON"), st, []⟩) := by
  refine ⟨?_, ?_, ?_⟩
  · intro hb
    unfold handle_webhook
    rw [hb]
  · intro cfg hb hv
    unfold handle_webhook
    rw [hb]
    simp only [hv, Bool.not_false, if_true]
  · intro cfg hb hv hp
    unfold handle_webhook
    rw [hb]
    simp only [hv, hp, Bool.not_true, Bool.false_eq_true, if_false]

/-- C2 witness: the three boundaries at concrete requests (unknown route,
    wrong signature, correct signature over an undecodable body). -/
theorem C2_webhook_error_boundaries_witness :
    handle_webhook sampleBots sampleEnv sampleSt ⟨"nobody", "s", "r", "B", none, none⟩ =
      ⟨(404, "Unknown bot"), sampleSt, []⟩ ∧
    handle_webhook sampleBots sampleEnv sampleSt
        ⟨"maarten", "zz", "r1", "RAWBODY", some (mkEnvelope "hoi"), none⟩ =
      ⟨(401, "Invalid signature"), sampleSt, []⟩ ∧
    handle_webhook sampleBots sampleEnv sampleSt
        ⟨"maarten", hmacSha256Hex "k" ("r1" ++ "notjson"), "r1", "notjson", none, none⟩ =
      ⟨(400, "Invalid JSON"), sampleSt, []⟩ :=
  ⟨(C2_webhook_error_boundaries sampleBots sampleEnv sampleSt _).1 (by decide),
   (C2_webhook_error_boundaries sampleBots sampleEnv sampleSt _).2.1 sampleCfg (by decide)
     (by decide),
   (C2_webhook_error_boundaries sampleBots sampleEnv sampleSt _).2.2 sampleCfg (by decide)
     (verify_correct_sig "k" "r1" "notjson" (by decide)) rfl⟩

/-- C7: on a conversation whose task binding is active, the message
    "we zijn klaar" (no slash command) short-circuits to the completion
    procedure: the binding status becomes completed, no confirmation
    prompt intervenes (every outbound message is the completion reply),
    and the default conversational path is never reached (no reasoning
    backend call, history untouched). -/
theorem C7_dispatch_precedence (bots : String → Option BotConfig) (env : Env) (st : St)
    (req : Req) (cfg : BotConfig) (e : Envelope) (tb : TaskBot)
    (hb : bots req.user = some cfg)
    (hv : verify_signature cfg.secret req.randomHeader req.rawBody req.signature = true)
    (hp : req.parsed = some e)
    (ha : e.activityType = "Create")
    (hact : e.actorType ≠ "Application")
    (hco : e.objectContent ≠ "")
    (htid : e.targetId ≠ "")
    (hto : lastSeg e.targetId ≠ "")
    (hm : (match e.contentMessage with
           | some m => m
           | none => e.objectContent) = "we zijn klaar")
    (htb : st.taskDB (lastSeg e.targetId) = some tb)
    (hstat : tb.status = "active")
    (hdb : env.dbOk = true) :
    (handle_webhook bots env st req).resp = (200, "ok") ∧
    (handle_webhook bots env st req).st.history = st.history ∧
    (handle_webhook bots env st req).st.taskDB (lastSeg e.targetId) =
      some { tb with status := "completed", completed_at := some env.now } ∧
    (∀ p, Eff.claudeCalled p ∉ (handle_webhook bots env st req).trace) ∧
    (∀ t x r, Eff.sent t x r ∈ (handle_webhook bots env st req).trace →
      x = taskDoneText tb.card_title) := by
  have hrw := handle_webhook_unpack bots env st req cfg e hb hv hp ha hact hco hto htid
  rw [hm] at hrw
  rw [dispatch_message_fallthrough env cfg req.user (lastSeg e.targetId) e.actorName
    (replyToOf e.objectId) req.fileInfo st "we zijn klaar" (by decide) (by decide) (by decide)
    (by decide) (by decide) (by decide) (by decide) (by decide) (by decide) (by decide)
    (by decide) (by decide) (by decide) (by decide) (by decide) (by decide) (by decide)] at hrw
  rw [tail_complete_wzk env (lastSeg e.targetId) e.actorName (replyToOf e.objectId)
    req.fileInfo st tb htb hstat hdb] at hrw
  rw [hrw]
  refine ⟨rfl, rfl, by simp, ?_, ?_⟩
  · intro p hmem
    rcases List.mem_append.mp hmem with hmv | hrest
    · exact claude_not_in_move env tb.board_id tb.stack_id tb.card_id p hmv
    · simp at hrest
  · intro t x r hmem
    rcases List.mem_append.mp hmem with hmv | hrest
    · exact absurd hmv (sent_not_in_move env _ _ _ t x r)
    · simp at hrest
      exact hrest.2.1

/-- C7 witness: the concrete scenario at an active sample binding. -/
theorem C7_dispatch_precedence_witness :
    (handle_webhook sampleBots sampleEnv sampleSt (mkReq "we zijn klaar")).resp = (200, "ok") ∧
    (handle_webhook sampleBots sampleEnv sampleSt (mkReq "we zijn klaar")).st.history =
      sampleSt.history ∧
    (handle_webhook sampleBots sampleEnv sampleSt (mkReq "we zijn klaar")).st.taskDB
        (lastSeg (mkEnvelope "we zijn klaar").targetId) =
      some { sampleTaskBot with status := "completed", completed_at := some sampleEnv.now } ∧
    (∀ p, Eff.claudeCalled p ∉
      (handle_webhook sampleBots sampleEnv sampleSt (mkReq "we zijn klaar")).trace) ∧
    (∀ t x r, Eff.sent t x r ∈
        (handle_webhook sampleBots sampleEnv sampleSt (mkReq "we zijn klaar")).trace →
      x = taskDoneText sampleTaskBot.card_title) :=
  C7_dispatch_precedence sampleBots sampleEnv sampleSt (mkReq "we zijn klaar") sampleCfg
    (mkEnvelope "we zijn klaar") sampleTaskBot (by decide)
    (verify_correct_sig "k" "r1" "RAWBODY" (by decide)) rfl rfl (by decide) (by decide)
    (by decide) (by decide) rfl (by decide) rfl rfl

theorem getLast?_add_to_history (l : List Msg) (role name content timestamp : String) :
    (add_to_history l role name content timestamp).getLast? =
      some ⟨role, name, content, timestamp⟩ := by
  unfold add_to_history
  rw [cap_eq_keepLast]
  unfold keepLast
  generalize (⟨role, name, content, timestamp⟩ : Msg) = m
  have hk : (l ++ [m]).length - MAX_HISTORY_MESSAGES * 2 ≤ l.length := by
    rw [List.length_append, List.length_singleton]
    unfold MAX_HISTORY_MESSAGES
    omega
  rw [List.drop_append_of_le_length hk, List.getLast?_concat]

/-- C8 (amended): a confirm-classified message ("kunnen we afronden") on
    an active binding produces exactly one outbound message, the
    confirmation prompt, with no task-status change, and leaves the
    confirmation request as the most recent history entry; afterwards,
    whenever the binding exists (any status), a message whose normalized
    text is a member of the fixed affirmation set of the source — ja,
    yes, ok, ok辿, bevestig, akkoord (the source list holds bevestig, not
    bevestigd as the spec writes) — while the most recent history entry
    is that completion-confirmation prompt runs the completion procedure
    and completes the task. -/
theorem C8_confirmation_flow (bots : String → Option BotConfig) (env : Env) :
    (∀ (st : St) (req : Req) (cfg : BotConfig) (e : Envelope) (tb : TaskBot),
      bots req.user = some cfg →
      verify_signature cfg.secret req.randomHeader req.rawBody req.signature = true →
      req.parsed = some e →
      e.activityType = "Create" →
      e.actorType ≠ "Application" →
      e.objectContent ≠ "" →
      e.targetId ≠ "" →
      lastSeg e.targetId ≠ "" →
      (match e.contentMessage with
       | some m => m
       | none => e.objectContent) = "kunnen we afronden" →
      st.taskDB (lastSeg e.targetId) = some tb →
      tb.status = "active" →
      (handle_webhook bots env st req).trace =
        [Eff.sent (lastSeg e.targetId) (confirmPromptText tb.card_title) none] ∧
      (handle_webhook bots env st req).st.taskDB = st.taskDB ∧
      ((handle_webhook bots env st req).st.history (lastSeg e.targetId)).getLast? =
        some ⟨"assistant", "Claude", "Vraag om bevestiging voor afronden taak", env.now⟩) ∧
    affirmation_words = ["ja", "yes", "ok", "ok辿", "bevestig", "akkoord"] ∧
    (∀ (st : St) (req : Req) (cfg : BotConfig) (e : Envelope) (tb : TaskBot) (lm : Msg),
      bots req.user = some cfg →
      verify_signature cfg.secret req.randomHeader req.rawBody req.signature = true →
      req.parsed = some e →
      e.activityType = "Create" →
      e.actorType ≠ "Application" →
      e.objectContent ≠ "" →
      e.targetId ≠ "" →
      lastSeg e.targetId ≠ "" →
      pyLower (pyStrip (match e.contentMessage with
        | some m => m
        | none => e.objectContent)) ∈ affirmation_words →
      st.taskDB (lastSeg e.targetId) = some tb →
      (st.history (lastSeg e.targetId)).getLast? = some lm →
      pyContains lm.content "bevestiging voor afronden" = true →
      env.dbOk = true →
      (handle_webhook bots env st req).st.taskDB (lastSeg e.targetId) =
        some { tb with status := "completed", completed_at := some env.now } ∧
      Eff.sent (lastSeg e.targetId) (taskDoneText tb.card_title) none ∈
        (handle_webhook bots env st req).trace ∧
      Eff.closedConv (lastSeg e.targetId) ∈ (handle_webhook bots env st req).trace) := by
  refine ⟨?_, rfl, ?_⟩
  · intro st req cfg e tb hb hv hp ha hact hco htid hto hm htb hstat
    have hrw := handle_webhook_unpack bots env st req cfg e hb hv hp ha hact hco hto htid
    rw [hm] at hrw
    rw [dispatch_message_fallthrough env cfg req.user (lastSeg e.targetId) e.actorName
      (replyToOf e.objectId) req.fileInfo st "kunnen we afronden" (by decide) (by decide)
      (by decide) (by decide) (by decide) (by decide) (by decide) (by decide) (by decide)
      (by decide) (by decide) (by decide) (by decide) (by decide) (by decide) (by decide)
      (by decide)] at hrw
    rw [tail_confirm_kwa env (lastSeg e.targetId) e.actorName (replyToOf e.objectId)
      req.fileInfo st tb htb hstat] at hrw
    rw [hrw]
    refine ⟨rfl, rfl, ?_⟩
    simp [setHist, getLast?_add_to_history]
  · intro st req cfg e tb lm hb hv hp ha hact hco htid hto hnorm htb hlast hcont hdb
    have hrw := handle_webhook_unpack bots env st req cfg e hb hv hp ha hact hco hto htid
    have hmem := hnorm
    simp only [affirmation_words, List.mem_cons, List.not_mem_nil, or_false] at hmem
    rcases hmem with hn | hn | hn | hn | hn | hn <;>
    · rw [dispatch_message_fallthrough env cfg req.user (lastSeg e.targetId) e.actorName
        (replyToOf e.objectId) req.fileInfo st _ (by rw [hn]; decide) (by rw [hn]; decide)
        (by rw [hn]; decide) (by rw [hn]; decide) (by rw [hn]; decide) (by rw [hn]; decide)
        (by rw [hn]; decide) (by rw [hn]; decide) (by rw [hn]; decide) (by rw [hn]; decide)
        (by rw [hn]; decide) (by rw [hn]; decide) (by rw [hn]; decide) (by rw [hn]; decide)
        (by rw [hn]; decide) (by rw [hn]; decide) (by rw [hn]; decide)] at hrw
      rw [tail_affirm env (lastSeg e.targetId) e.actorName (replyToOf e.objectId) _
        req.fileInfo st tb lm htb hnorm hlast hcont hdb] at hrw
      rw [hrw]
      refine ⟨by simp, ?_, ?_⟩
      · exact List.mem_append.mpr (Or.inr (by simp))
      · exact List.mem_append.mpr (Or.inr (by simp))

/-- C8 witness: the confirm scenario at the sample active binding, then
    the affirmation ja completing the task with the prompt as most recent
    history entry. -/
theorem C8_confirmation_flow_witness :
    ((handle_webhook sampleBots sampleEnv sampleSt (mkReq "kunnen we afronden")).trace =
      [Eff.sent (lastSeg (mkEnvelope "kunnen we afronden").targetId)
        (confirmPromptText sampleTaskBot.card_title) none] ∧
     (handle_webhook sampleBots sampleEnv sampleSt (mkReq "kunnen we afronden")).st.taskDB =
       sampleSt.taskDB ∧
     ((handle_webhook sampleBots sampleEnv sampleSt (mkReq "kunnen we afronden")).st.history
        (lastSeg (mkEnvelope "kunnen we afronden").targetId)).getLast? =
       some ⟨"assistant", "Claude", "Vraag om bevestiging voor afronden taak", sampleEnv.now⟩) ∧
    ((handle_webhook sampleBots sampleEnv stPrompt (mkReq "ja")).st.taskDB
        (lastSeg (mkEnvelope "ja").targetId) =
      some { sampleTaskBot with status := "completed", completed_at := some sampleEnv.now } ∧
     Eff.sent (lastSeg (mkEnvelope "ja").targetId) (taskDoneText sampleTaskBot.card_title)
        none ∈ (handle_webhook sampleBots sampleEnv stPrompt (mkReq "ja")).trace ∧
     Eff.closedConv (lastSeg (mkEnvelope "ja").targetId) ∈
       (handle_webhook sampleBots sampleEnv stPrompt (mkReq "ja")).trace) :=
  ⟨(C8_confirmation_flow sampleBots sampleEnv).1 sampleSt (mkReq "kunnen we afronden")
     sampleCfg (mkEnvelope "kunnen we afronden") sampleTaskBot (by decide)
     (verify_correct_sig "k" "r1" "RAWBODY" (by decide)) rfl rfl (by decide) (by decide)
     (by decide) (by decide) rfl (by decide) rfl,
   (C8_confirmation_flow sampleBots sampleEnv).2.2 stPrompt (mkReq "ja") sampleCfg
     (mkEnvelope "ja") sampleTaskBot
     ⟨"assistant", "Claude", "Vraag om bevestiging voor afronden taak", "T0"⟩ (by decide)
     (verify_correct_sig "k" "r1" "RAWBODY" (by decide)) rfl rfl (by decide) (by decide)
     (by decide) (by decide) (by decide) (by decide) (by decide) (by decide) rfl⟩

/-- C8 counterexample: bevestigd, listed by the claim as an affirmation,
    is not in the source list (which holds bevestig); with an active
    binding and the confirmation prompt as the most recent history entry,
    the message bevestigd does not run the completion procedure — the
    status stays active, no conversation deletion is requested, and the
    default conversational path (a reasoning-backend call) runs instead. -/
theorem C8_confirmation_flow_counterexample :
    pyLower (pyStrip "bevestigd") = "bevestigd" ∧
    (stPrompt.history "tok").getLast? =
      some ⟨"assistant", "Claude", "Vraag om bevestiging voor afronden taak", "T0"⟩ ∧
    pyContains "Vraag om bevestiging voor afronden taak" "bevestiging voor afronden" = true ∧
    "bevestigd" ∉ affirmation_words ∧
    ((handle_webhook sampleBots sampleEnv stPrompt (mkReq "bevestigd")).st.taskDB "tok").map
      TaskBot.status = some "active" ∧
    Eff.closedConv "tok" ∉
      (handle_webhook sampleBots sampleEnv stPrompt (mkReq "bevestigd")).trace ∧
    ((handle_webhook sampleBots sampleEnv stPrompt (mkReq "bevestigd")).trace.any
      (fun eff => match eff with
        | Eff.claudeCalled _ => true
        | _ => false)) = true :=
  ⟨by decide, by decide, by decide, by decide, by decide, by decide, by decide⟩

def sampleEnvFail : Env := { sampleEnv with dbOk := false }

def sampleEnvNoStack : Env := { sampleEnv with stacksResult := some [⟨4, "Bezig"⟩] }

/-- C9: in the /done completion flow, when the task-database status
    update succeeds the completion reply and the conversation-deletion
    request both happen for every outcome of the card move — including
    a stack listing without any title containing klaar, done or afgerond,
    which makes the move return false without moving; when the status
    update fails, the whole procedure aborts with the error reply
    instead, no state change and no deletion request. -/
theorem C9_completion_failure_modes (bots : String → Option BotConfig) (env : Env) (st : St)
    (req : Req) (cfg : BotConfig) (e : Envelope) (tb : TaskBot)
    (hb : bots req.user = some cfg)
    (hv : verify_signature cfg.secret req.randomHeader req.rawBody req.signature = true)
    (hp : req.parsed = some e)
    (ha : e.activityType = "Create")
    (hact : e.actorType ≠ "Application")
    (hco : e.objectContent ≠ "")
    (htid : e.targetId ≠ "")
    (hto : lastSeg e.targetId ≠ "")
    (hm : (match e.contentMessage with
           | some m => m
           | none => e.objectContent) = "/done")
    (htb : st.taskDB (lastSeg e.targetId) = some tb) :
    (env.dbOk = true →
      (handle_webhook bots env st req).st.taskDB (lastSeg e.targetId) =
        some { tb with status := "completed", completed_at := some env.now } ∧
      (handle_webhook bots env st req).trace =
        (move_card_to_done env tb.board_id tb.stack_id tb.card_id).2 ++
          [Eff.sent (lastSeg e.targetId) (taskDoneText tb.card_title) none,
           Eff.closedConv (lastSeg e.targetId)] ∧
      (handle_webhook bots env st req).resp = (200, "ok")) ∧
    (env.dbOk = false →
      handle_webhook bots env st req =
        ⟨okFailed env.sendOk, st,
         [Eff.sent (lastSeg e.targetId) "Fout bij afronden van de taak." none]⟩) ∧
    (∀ sl : List Stack, env.stacksResult = some sl →
      (∀ stack ∈ sl,
        (pyContains (pyLower stack.title) "klaar" || pyContains (pyLower stack.title) "done" ||
          pyContains (pyLower stack.title) "afgerond") = false) →
      move_card_to_done env tb.board_id tb.stack_id tb.card_id =
        (false, [Eff.listedStacks tb.board_id])) := by
  have hrw := handle_webhook_unpack bots env st req cfg e hb hv hp ha hact hco hto htid
  rw [hm] at hrw
  refine ⟨?_, ?_, fun sl hs hnone => move_card_no_done_stack env _ _ _ sl hs hnone⟩
  · intro hdb
    rw [dispatch_done_ok env cfg req.user (lastSeg e.targetId) e.actorName
      (replyToOf e.objectId) req.fileInfo st tb htb hdb] at hrw
    rw [hrw]
    exact ⟨by simp, rfl, rfl⟩
  · intro hdb
    rw [dispatch_done_fail env cfg req.user (lastSeg e.targetId) e.actorName
      (replyToOf e.objectId) req.fileInfo st tb htb hdb] at hrw
    exact hrw

/-- C9 witness: the /done scenario with a succeeding status update (with
    and without a matching done stack) and with a failing status update,
    at concrete requests. -/
theorem C9_completion_failure_modes_witness :
    ((handle_webhook sampleBots sampleEnv sampleSt (mkReq "/done")).st.taskDB
        (lastSeg (mkEnvelope "/done").targetId) =
      some { sampleTaskBot with status := "completed", completed_at := some sampleEnv.now } ∧
     (handle_webhook sampleBots sampleEnv sampleSt (mkReq "/done")).trace =
       (move_card_to_done sampleEnv sampleTaskBot.board_id sampleTaskBot.stack_id
         sampleTaskBot.card_id).2 ++
         [Eff.sent (lastSeg (mkEnvelope "/done").targetId)
            (taskDoneText sampleTaskBot.card_title) none,
          Eff.closedConv (lastSeg (mkEnvelope "/done").targetId)] ∧
     (handle_webhook sampleBots sampleEnv sampleSt (mkReq "/done")).resp = (200, "ok")) ∧
    handle_webhook sampleBots sampleEnvFail sampleSt (mkReq "/done") =
      ⟨okFailed sampleEnvFail.sendOk, sampleSt,
       [Eff.sent (lastSeg (mkEnvelope "/done").targetId)
          "Fout bij afronden van de taak." none]⟩ ∧
    move_card_to_done sampleEnvNoStack sampleTaskBot.board_id sampleTaskBot.stack_id
      sampleTaskBot.card_id = (false, [Eff.listedStacks sampleTaskBot.board_id]) :=
  ⟨(C9_completion_failure_modes sampleBots sampleEnv sampleSt (mkReq "/done") sampleCfg
      (mkEnvelope "/done") sampleTaskBot (by decide)
      (verify_correct_sig "k" "r1" "RAWBODY" (by decide)) rfl rfl (by decide) (by decide)
      (by decide) (by decide) rfl (by decide)).1 rfl,
   (C9_completion_failure_modes sampleBots sampleEnvFail sampleSt (mkReq "/done") sampleCfg
      (mkEnvelope "/done") sampleTaskBot (by decide)
      (verify_correct_sig "k" "r1" "RAWBODY" (by decide)) rfl rfl (by decide) (by decide)
      (by decide) (by decide) rfl (by decide)).2.1 rfl,
   (C9_completion_failure_modes sampleBots sampleEnvNoStack sampleSt (mkReq "/done") sampleCfg
      (mkEnvelope "/done") sampleTaskBot (by decide)
      (verify_correct_sig "k" "r1" "RAWBODY" (by decide)) rfl rfl (by decide) (by decide)
      (by decide) (by decide) rfl (by decide)).2.2 [⟨4, "Bezig"⟩] rfl (by decide)⟩

/-- C10: when the affirmation ja completes the task through the
    pending-confirmation branch, the handler appends nothing to history —
    the conversation histories of every token are exactly as before, so
    the completion-confirmation prompt remains the most recent entry —
    and therefore the same affirmation sent again against the resulting
    state re-runs the completion procedure even though the binding status
    is already completed. -/
theorem C10_affirmation_frame_effect (bots : String → Option BotConfig) (env : Env) (st : St)
    (req : Req) (cfg : BotConfig) (e : Envelope) (tb : TaskBot) (lm : Msg)
    (hb : bots req.user = some cfg)
    (hv : verify_signature cfg.secret req.randomHeader req.rawBody req.signature = true)
    (hp : req.parsed = some e)
    (ha : e.activityType = "Create")
    (hact : e.actorType ≠ "Application")
    (hco : e.objectContent ≠ "")
    (htid : e.targetId ≠ "")
    (hto : lastSeg e.targetId ≠ "")
    (hm : (match e.contentMessage with
           | some m => m
           | none => e.objectContent) = "ja")
    (htb : st.taskDB (lastSeg e.targetId) = some tb)
    (hlast : (st.history (lastSeg e.targetId)).getLast? = some lm)
    (hcont : pyContains lm.content "bevestiging voor afronden" = true)
    (hdb : env.dbOk = true) :
    (handle_webhook bots env st req).st.history = st.history ∧
    (handle_webhook bots env st req).st.facts = st.facts ∧
    ((handle_webhook bots env st req).st.history (lastSeg e.targetId)).getLast? = some lm ∧
    (handle_webhook bots env st req).st.taskDB (lastSeg e.targetId) =
      some { tb with status := "completed", completed_at := some env.now } ∧
    Eff.closedConv (lastSeg e.targetId) ∈ (handle_webhook bots env st req).trace ∧
    Eff.closedConv (lastSeg e.targetId) ∈
      (handle_webhook bots env (handle_webhook bots env st req).st req).trace ∧
    Eff.sent (lastSeg e.targetId) (taskDoneText tb.card_title) none ∈
      (handle_webhook bots env (handle_webhook bots env st req).st req).trace := by
  have hrw := handle_webhook_unpack bots env st req cfg e hb hv hp ha hact hco hto htid
  rw [hm] at hrw
  rw [dispatch_message_fallthrough env cfg req.user (lastSeg e.targetId) e.actorName
    (replyToOf e.objectId) req.fileInfo st "ja" (by decide) (by decide) (by decide)
    (by decide) (by decide) (by decide) (by decide) (by decide) (by decide) (by decide)
    (by decide) (by decide) (by decide) (by decide) (by decide) (by decide) (by decide)] at hrw
  rw [tail_affirm env (lastSeg e.targetId) e.actorName (replyToOf e.objectId) "ja"
    req.fileInfo st tb lm htb (by decide) hlast hcont hdb] at hrw
  have hrw2 := handle_webhook_unpack bots env (handle_webhook bots env st req).st req cfg e
    hb hv hp ha hact hco hto htid
  rw [hm] at hrw2
  rw [dispatch_message_fallthrough env cfg req.user (lastSeg e.targetId) e.actorName
    (replyToOf e.objectId) req.fileInfo (handle_webhook bots env st req).st "ja" (by decide)
    (by decide) (by decide) (by decide) (by decide) (by decide) (by decide) (by decide)
    (by decide) (by decide) (by decide) (by decide) (by decide) (by decide) (by decide)
    (by decide) (by decide)] at hrw2
  rw [tail_affirm env (lastSeg e.targetId) e.actorName (replyToOf e.objectId) "ja"
    req.fileInfo (handle_webhook bots env st req).st
    { tb with status := "completed", completed_at := some env.now } lm
    (by rw [hrw]; simp) (by decide) (by rw [hrw]; exact hlast) hcont hdb] at hrw2
  rw [hrw2, hrw]
  refine ⟨rfl, rfl, hlast, by simp, ?_, ?_, ?_⟩
  · exact List.mem_append.mpr (Or.inr (by simp))
  · exact List.mem_append.mpr (Or.inr (by simp))
  · exact List.mem_append.mpr (Or.inr (by simp))

/-- C10 witness: the concrete pending-confirmation state, the affirmation
    ja, and the repeated affirmation against the resulting state. -/
theorem C10_affirmation_frame_effect_witness :
    (handle_webhook sampleBots sampleEnv stPrompt (mkReq "ja")).st.history =
      stPrompt.history ∧
    (handle_webhook sampleBots sampleEnv stPrompt (mkReq "ja")).st.facts = stPrompt.facts ∧
    ((handle_webhook sampleBots sampleEnv stPrompt (mkReq "ja")).st.history
        (lastSeg (mkEnvelope "ja").targetId)).getLast? =
      some ⟨"assistant", "Claude", "Vraag om bevestiging voor afronden taak", "T0"⟩ ∧
    (handle_webhook sampleBots sampleEnv stPrompt (mkReq "ja")).st.taskDB
        (lastSeg (mkEnvelope "ja").targetId) =
      some { sampleTaskBot with status := "completed", completed_at := some sampleEnv.now } ∧
    Eff.closedConv (lastSeg (mkEnvelope "ja").targetId) ∈
      (handle_webhook sampleBots sampleEnv stPrompt (mkReq "ja")).trace ∧
    Eff.closedConv (lastSeg (mkEnvelope "ja").targetId) ∈
      (handle_webhook sampleBots sampleEnv
        (handle_webhook sampleBots sampleEnv stPrompt (mkReq "ja")).st (mkReq "ja")).trace ∧
    Eff.sent (lastSeg (mkEnvelope "ja").targetId) (taskDoneText sampleTaskBot.card_title)
        none ∈
      (handle_webhook sampleBots sampleEnv
        (handle_webhook sampleBots sampleEnv stPrompt (mkReq "ja")).st (mkReq "ja")).trace :=
  C10_affirmation_frame_effect sampleBots sampleEnv stPrompt (mkReq "ja") sampleCfg
    (mkEnvelope "ja") sampleTaskBot
    ⟨"assistant", "Claude", "Vraag om bevestiging voor afronden taak", "T0"⟩ (by decide)
    (verify_correct_sig "k" "r1" "RAWBODY" (by decide)) rfl rfl (by decide) (by decide)
    (by decide) (by decide) rfl (by decide) (by decide) (by decide) rfl
